import Mathlib

/-!
# Verification of the inventory-lookup device-identifier resolution service

Shallow embedding of the per-vendor resolution logic of
`device_lookup_api.py` / `dell_lookup_api.py` (the vendor logic is
duplicated verbatim across the repository's files; one embedding covers
all copies).

Modelling conventions:
* Python identifier strings are modelled as `List Char` (`Str`); model
  labels and diagnostic messages are Lean `String`s.
* The anchored validation regexes `^...$` are modelled faithfully to
  Python `re.match` semantics: `$` also matches just before one trailing
  newline (`pyMatchAnchored`).  Character classes are modelled over
  ASCII.
* The network fetch performed by the scrape resolvers is modelled by a
  `FetchOutcome` value passed in: either a fetched page or one of the
  `requests` exception kinds the code distinguishes
  (`HTTPError`/`ConnectionError`/`Timeout`/other `RequestException`).
* A fetched page (`BeautifulSoup` document) is modelled by the results of
  the only queries the code performs: `soup.find(tag, class_=...)`,
  `soup.find(tag, id=...)` and `soup.find('title')`, each giving the
  found element's `.text` (or `none` when no element matches).
-/

abbrev Str := List Char

/-- ASCII `[a-zA-Z0-9]`. -/
def isAsciiAlnum (c : Char) : Bool := c.isAlpha || c.isDigit

/-- ASCII `[A-Z0-9]`. -/
def isUpperAlnum (c : Char) : Bool := c.isUpper || c.isDigit

/-- Python `\s` (ASCII whitespace as used by `str.strip` / regex `\s`). -/
def isPySpace (c : Char) : Bool :=
  c = ' ' || c = '\t' || c = '\n' || c = '\r' || c = '\x0b' || c = '\x0c'

/-- Python `str.upper()` (ASCII). -/
def pyUpper (l : Str) : Str := l.map Char.toUpper

/-- Python `str.strip()` (strip whitespace at both ends). -/
def pyStrip (l : Str) : Str :=
  ((l.dropWhile isPySpace).reverse.dropWhile isPySpace).reverse

/-- `str.strip()` on a Lean `String`. -/
def pyStripS (s : String) : String := String.mk (pyStrip s.data)

/-- Python `str.isdigit()` (nonempty and all digits; ASCII). -/
def pyIsDigit (l : Str) : Bool := !l.isEmpty && l.all Char.isDigit

/-- Python `pat in s` substring test. -/
def hasSubstr (pat : Str) : Str → Bool
  | [] => pat.isEmpty
  | c :: rest => pat.isPrefixOf (c :: rest) || hasSubstr pat rest

/-- Substring test on Lean `String`s. -/
def hasSubstrS (pat s : String) : Bool := hasSubstr pat.data s.data

/-- Case-insensitively drop `pat` from the front of `l`; `none` if `l`
does not start with `pat` (up to ASCII case). -/
def ciDrop : Str → Str → Option Str
  | [], l => some l
  | _ :: _, [] => none
  | p :: ps, c :: cs => if p.toLower = c.toLower then ciDrop ps cs else none

/-- Python `re.sub(r'^<pat>\s+', '', l, flags=re.IGNORECASE)`: when `l`
starts with `pat` (case-insensitively) followed by at least one
whitespace character, remove the pattern and the (greedy) whitespace run;
otherwise `l` unchanged. -/
def subLeadingVendor (pat : Str) (l : Str) : Str :=
  match ciDrop pat l with
  | some rest =>
      match rest with
      | c :: cs => if isPySpace c then cs.dropWhile isPySpace else l
      | [] => l
  | none => l

/-- Python `re.match` of an anchored pattern `^...$` against a whole
string: the core pattern must match the full string, or the full string
minus one trailing newline (`$` semantics). -/
def pyMatchAnchored (core : Str → Bool) (l : Str) : Bool :=
  core l || ((l.getLast? == some '\n') && core l.dropLast)

/-! ## Validation regexes (module-level constants of the source) -/

/-- Core of `^[a-zA-Z0-9]{7}$`. -/
def dellCore (l : Str) : Bool := l.length == 7 && l.all isAsciiAlnum

/-- Dell Service Tag validation regex (7-character alphanumeric). -/
def SERVICE_TAG_REGEX (l : Str) : Bool := pyMatchAnchored dellCore l

/-- Core of `^[a-zA-Z0-9]{10,12}$`. -/
def hpCore (l : Str) : Bool :=
  (10 ≤ l.length && l.length ≤ 12) && l.all isAsciiAlnum

/-- HP Serial Number validation regex (10-12 alphanumeric characters). -/
def HP_SERIAL_REGEX (l : Str) : Bool := pyMatchAnchored hpCore l

/-- ViewSonic Serial Number validation regex (10-12 alphanumeric
characters); same pattern as HP's. -/
def VIEWSONIC_SERIAL_REGEX (l : Str) : Bool := pyMatchAnchored hpCore l

/-- Core of `^[a-zA-Z0-9]{12}$`. -/
def juniperCore (l : Str) : Bool := l.length == 12 && l.all isAsciiAlnum

/-- Juniper Serial Number validation regex (12 alphanumeric characters). -/
def JUNIPER_SERIAL_REGEX (l : Str) : Bool := pyMatchAnchored juniperCore l

/-- Core of `^[a-zA-Z0-9]{12}$|^[a-zA-Z0-9]{16}$`. -/
def cyberpowerCore (l : Str) : Bool :=
  (l.length == 12 || l.length == 16) && l.all isAsciiAlnum

/-- CyberPower Serial Number validation regex (12 or 16 alphanumeric). -/
def CYBERPOWER_SERIAL_REGEX (l : Str) : Bool := pyMatchAnchored cyberpowerCore l

/-- Core of `^[a-zA-Z0-9]{15}$`. -/
def brotherCore (l : Str) : Bool := l.length == 15 && l.all isAsciiAlnum

/-- Brother Serial Number validation regex (15 alphanumeric characters). -/
def BROTHER_SERIAL_REGEX (l : Str) : Bool := pyMatchAnchored brotherCore l

/-- Core of `^[a-zA-Z0-9]{12}$|^[a-zA-Z0-9]{17}$`. -/
def appleCore (l : Str) : Bool :=
  (l.length == 12 || l.length == 17) && l.all isAsciiAlnum

/-- Apple Serial Number validation regex (12 or 17 alphanumeric). -/
def APPLE_SERIAL_REGEX (l : Str) : Bool := pyMatchAnchored appleCore l

/-- Core of `^[a-zA-Z0-9]{22}$|^\d{11,12}$`. -/
def acerCore (l : Str) : Bool :=
  (l.length == 22 && l.all isAsciiAlnum) ||
  ((11 ≤ l.length && l.length ≤ 12) && l.all Char.isDigit)

/-- Acer Serial Number validation regex (22 alphanumeric characters, or
11/12 digit SNID). -/
def ACER_SERIAL_REGEX (l : Str) : Bool := pyMatchAnchored acerCore l

/-- Core of `^[a-zA-Z0-9]{8,12}$`. -/
def lenovoCore (l : Str) : Bool :=
  (8 ≤ l.length && l.length ≤ 12) && l.all isAsciiAlnum

/-- Lenovo Serial Number validation regex (8-12 alphanumeric characters). -/
def LENOVO_SERIAL_REGEX (l : Str) : Bool := pyMatchAnchored lenovoCore l

/-- Core of `^[A-Z]{3}\d{8}$`. -/
def ciscoCore (l : Str) : Bool :=
  l.length == 11 && (l.take 3).all Char.isUpper && (l.drop 3).all Char.isDigit

/-- Cisco Serial Number validation regex (`LLLYYWWXXXX`). -/
def CISCO_SERIAL_REGEX (l : Str) : Bool := pyMatchAnchored ciscoCore l

/-- Core of `^[A-Z0-9]{12}$`. -/
def apcCore (l : Str) : Bool := l.length == 12 && l.all isUpperAlnum

/-- APC Serial Number validation regex (12 characters). -/
def APC_SERIAL_REGEX (l : Str) : Bool := pyMatchAnchored apcCore l

/-- Core of `^[0-9]{12}$|^[0-9]{16}$|^[A-Z0-9]{12}$`. -/
def microsoftCore (l : Str) : Bool :=
  (l.length == 12 && l.all Char.isDigit) ||
  (l.length == 16 && l.all Char.isDigit) ||
  (l.length == 12 && l.all isUpperAlnum)

/-- Microsoft Serial Number validation regex (12 or 16 digits/letters). -/
def MICROSOFT_SERIAL_REGEX (l : Str) : Bool := pyMatchAnchored microsoftCore l

/-- Core of `^[A-Z0-9]{11}$|^[A-Z0-9]{15}$`. -/
def samsungCore (l : Str) : Bool :=
  (l.length == 11 || l.length == 15) && l.all isUpperAlnum

/-- Samsung Serial Number validation regex (11 or 15 characters). -/
def SAMSUNG_SERIAL_REGEX (l : Str) : Bool := pyMatchAnchored samsungCore l

/-- Core of `^[A-Z0-9]{14}$`. -/
def vizioCore (l : Str) : Bool := l.length == 14 && l.all isUpperAlnum

/-- Vizio Serial Number validation regex (14 characters). -/
def VIZIO_SERIAL_REGEX (l : Str) : Bool := pyMatchAnchored vizioCore l

/-- Core of `^[A-Z0-9]{12,14}$`. -/
def tclCore (l : Str) : Bool :=
  (12 ≤ l.length && l.length ≤ 14) && l.all isUpperAlnum

/-- TCL Serial Number validation regex (12-14 characters). -/
def TCL_SERIAL_REGEX (l : Str) : Bool := pyMatchAnchored tclCore l

/-! ## Inference tables (the `prefix_to_model` / `model_map` dict literals) -/

/-- `prefix_to_model` dict of `get_apple_model_name`. -/
def apple_prefix_to_model : List (String × String) :=
  [("C02", "MacBook Pro (Inferred)"),
   ("C03", "MacBook Air (Inferred)"),
   ("C1M", "iMac (Inferred)"),
   ("DCP", "Mac Mini (Inferred)"),
   ("F4H", "iPad Pro (Inferred)"),
   ("F5K", "iPad Air (Inferred)"),
   ("F9F", "iPhone (Inferred)"),
   ("F9G", "iPhone (Inferred)"),
   ("G0C", "Apple Watch (Inferred)"),
   ("FTY", "iPod Touch (Inferred)")]

/-- `prefix_to_model` dict of `get_cisco_model_name`. -/
def cisco_prefix_to_model : List (String × String) :=
  [("FOX", "Cisco Product (Foxconn - Common for Switches/Routers)"),
   ("FOC", "Cisco Product (China - Common for Switches/Routers)"),
   ("JAE", "Cisco Product (Japan - Older/Specialized Gear)"),
   ("JAB", "Cisco Product (Japan - Older/Specialized Gear)"),
   ("KWC", "Cisco Product (Common for Access Points/Smaller Devices)")]

/-- `model_map` dict of `get_vizio_model_name`. -/
def vizio_model_map : List (String × String) :=
  [("LTMA", "Vizio M-Series TV (Inferred)"),
   ("LTAS", "Vizio E-Series TV (Inferred)"),
   ("LTJZ", "Vizio V-Series TV (Inferred)"),
   ("LTJA", "Vizio D-Series TV (Inferred)")]

/-- `prefix_to_model` dict of `get_apc_model_name`. -/
def apc_prefix_to_model : List (String × String) :=
  [("AS", "APC Smart-UPS (Rack/Tower)"),
   ("AP", "APC Power Distribution Unit (PDU)"),
   ("BB", "APC Back-UPS (Basic Battery Backup)"),
   ("BK", "APC Back-UPS (Basic Battery Backup)"),
   ("SM", "APC Smart-UPS (Older Models)"),
   ("SU", "APC Smart-UPS (Older Models)"),
   ("SY", "APC Symmetra (Modular UPS)")]

/-- `prefix_to_model` dict of `get_brother_model_name`. -/
def brother_prefix_to_model : List (String × String) :=
  [("U6", "Brother HL-L Series Laser Printer"),
   ("E6", "Brother MFC-L Series All-in-One"),
   ("K6", "Brother DCP-L Series All-in-One"),
   ("D6", "Brother MFC-J Series Inkjet"),
   ("J6", "Brother DCP-J Series Inkjet")]

/-- `prefix_to_model` dict of `get_cyberpower_model_name`. -/
def cyberpower_prefix_to_model : List (String × String) :=
  [("CP", "CyberPower CP Series UPS"),
   ("PR", "CyberPower PR Series UPS"),
   ("OR", "CyberPower OR Series UPS"),
   ("BP", "CyberPower Battery Pack"),
   ("CP1", "CyberPower CP1500PFCLCD"),
   ("CP2", "CyberPower CP1000PFCLCD")]

/-- `prefix_to_model` dict of `get_juniper_model_name`. -/
def juniper_prefix_to_model : List (String × String) :=
  [("AA", "EX4100-24P"),
   ("AB", "EX4100-48P"),
   ("AC", "EX4100-24T"),
   ("AD", "EX4100-48T"),
   ("BA", "EX4300-24P"),
   ("BB", "EX4300-48P"),
   ("CA", "EX2300-24P"),
   ("CB", "EX2300-48P")]

/-! ## Inference resolvers

Each resolver mirrors the source `get_<vendor>_model_name` function: first
the regex guard (whose failure returns the `Invalid ...` diagnostic),
then the unguarded body, split out as a named definition so the guard's
redundancy relative to the route-level check can be stated. -/

/-- Unguarded body of `get_apple_model_name` (after the regex guard). -/
def appleBody (serial_number : Str) : Option String × String :=
  let pfx := String.mk (pyUpper (serial_number.take 3))
  match apple_prefix_to_model.lookup pfx with
  | some model =>
      (some model,
       "Model inferred from serial number prefix '" ++ pfx ++ "'. Please verify.")
  | none => (none, "Could not infer Apple model from serial number prefix.")

/-- `get_apple_model_name`: infers the Apple model from the first three
characters of the serial.  (The source's `len == 17` block only computes
an unused 5-character prefix and falls through.) -/
def get_apple_model_name (serial_number : Str) : Option String × String :=
  if !(APPLE_SERIAL_REGEX serial_number) then
    (none, "Invalid Apple Serial Number format (must be 12 or 17 alphanumeric characters).")
  else appleBody serial_number

/-- Unguarded body of `get_cisco_model_name`. -/
def ciscoBody (serial_number : Str) : Option String × String :=
  let pfx := String.mk (pyUpper (serial_number.take 3))
  match cisco_prefix_to_model.lookup pfx with
  | some model =>
      (some model,
       "Model inferred from serial number location code '" ++ pfx ++ "'. Please verify.")
  | none =>
      (some "Cisco Network Device (Inferred)",
       "Model inferred from serial number structure. Please verify.")

/-- `get_cisco_model_name`: table hit on the 3-letter location code, with
a generic catch-all label on a miss. -/
def get_cisco_model_name (serial_number : Str) : Option String × String :=
  if !(CISCO_SERIAL_REGEX serial_number) then
    (none, "Invalid Cisco Serial Number format (must be 11 characters: LLLYYWWXXXX).")
  else ciscoBody serial_number

/-- Unguarded body of `get_tcl_model_name`. -/
def tclBody (_serial_number : Str) : Option String × String :=
  (some "TCL TV/Display (Inferred)",
   "Model inferred from serial number structure. Please verify.")

/-- `get_tcl_model_name`: always the generic inferred label. -/
def get_tcl_model_name (serial_number : Str) : Option String × String :=
  if !(TCL_SERIAL_REGEX serial_number) then
    (none, "Invalid TCL Serial Number format (must be 12-14 alphanumeric characters).")
  else tclBody serial_number

/-- Unguarded body of `get_vizio_model_name` (note: the source does not
uppercase this 4-character prefix). -/
def vizioBody (serial_number : Str) : Option String × String :=
  let pfx := String.mk (serial_number.take 4)
  match vizio_model_map.lookup pfx with
  | some model =>
      (some model,
       "Model inferred from serial number prefix '" ++ pfx ++ "'. Please verify.")
  | none =>
      (some "Vizio Display/TV (Inferred)",
       "Model inferred from serial number structure. Please verify.")

/-- `get_vizio_model_name`. -/
def get_vizio_model_name (serial_number : Str) : Option String × String :=
  if !(VIZIO_SERIAL_REGEX serial_number) then
    (none, "Invalid Vizio Serial Number format (must be 14 alphanumeric characters).")
  else vizioBody serial_number

/-- Unguarded body of `get_samsung_model_name`. -/
def samsungBody (_serial_number : Str) : Option String × String :=
  (some "Samsung Device (Inferred)",
   "Model inferred from serial number structure. Please verify.")

/-- `get_samsung_model_name`: always the generic inferred label. -/
def get_samsung_model_name (serial_number : Str) : Option String × String :=
  if !(SAMSUNG_SERIAL_REGEX serial_number) then
    (none, "Invalid Samsung Serial Number format (must be 11 or 15 alphanumeric characters).")
  else samsungBody serial_number

/-- Unguarded body of `get_microsoft_model_name`. -/
def microsoftBody (_serial_number : Str) : Option String × String :=
  (some "Microsoft Surface Device (Inferred)",
   "Model inferred from serial number structure. Please verify.")

/-- `get_microsoft_model_name`: always the generic inferred label. -/
def get_microsoft_model_name (serial_number : Str) : Option String × String :=
  if !(MICROSOFT_SERIAL_REGEX serial_number) then
    (none, "Invalid Microsoft Serial Number format (must be 12 or 16 digits/letters).")
  else microsoftBody serial_number

/-- Unguarded body of `get_apc_model_name`. -/
def apcBody (serial_number : Str) : Option String × String :=
  let pfx := String.mk (pyUpper (serial_number.take 2))
  match apc_prefix_to_model.lookup pfx with
  | some model =>
      (some model,
       "Model inferred from serial number prefix '" ++ pfx ++ "'. Please verify.")
  | none =>
      (some "APC UPS/Power Device (Inferred)",
       "Model inferred from serial number structure. Please verify.")

/-- `get_apc_model_name`. -/
def get_apc_model_name (serial_number : Str) : Option String × String :=
  if !(APC_SERIAL_REGEX serial_number) then
    (none, "Invalid APC Serial Number format (must be 12 alphanumeric characters).")
  else apcBody serial_number

/-- Unguarded body of `get_brother_model_name`. -/
def brotherBody (serial_number : Str) : Option String × String :=
  let pfx := String.mk (pyUpper (serial_number.take 2))
  match brother_prefix_to_model.lookup pfx with
  | some model =>
      (some model,
       "Model inferred from serial number prefix '" ++ pfx ++ "'. Please verify.")
  | none => (none, "Could not infer Brother model from serial number prefix.")

/-- `get_brother_model_name`. -/
def get_brother_model_name (serial_number : Str) : Option String × String :=
  if !(BROTHER_SERIAL_REGEX serial_number) then
    (none, "Invalid Brother Serial Number format (must be 15 alphanumeric characters).")
  else brotherBody serial_number

/-- Unguarded body of `get_cyberpower_model_name`: tries the 3-character
prefix before the 2-character prefix. -/
def cyberpowerBody (serial_number : Str) : Option String × String :=
  let pfx3 := String.mk (pyUpper (serial_number.take 3))
  let pfx2 := String.mk (pyUpper (serial_number.take 2))
  match cyberpower_prefix_to_model.lookup pfx3 with
  | some model =>
      (some model,
       "Model inferred from serial number prefix '" ++ pfx3 ++ "'. Please verify.")
  | none =>
      match cyberpower_prefix_to_model.lookup pfx2 with
      | some model =>
          (some model,
           "Model inferred from serial number prefix '" ++ pfx2 ++ "'. Please verify.")
      | none => (none, "Could not infer CyberPower model from serial number prefix.")

/-- `get_cyberpower_model_name`. -/
def get_cyberpower_model_name (serial_number : Str) : Option String × String :=
  if !(CYBERPOWER_SERIAL_REGEX serial_number) then
    (none, "Invalid CyberPower Serial Number format (must be 12 or 16 alphanumeric characters).")
  else cyberpowerBody serial_number

/-- Unguarded body of `get_juniper_model_name`. -/
def juniperBody (serial_number : Str) : Option String × String :=
  let pfx := String.mk (pyUpper (serial_number.take 2))
  match juniper_prefix_to_model.lookup pfx with
  | some model =>
      (some model,
       "Model inferred from serial number prefix '" ++ pfx ++ "'. Please verify.")
  | none => (none, "Could not infer Juniper model from serial number prefix.")

/-- `get_juniper_model_name`. -/
def get_juniper_model_name (serial_number : Str) : Option String × String :=
  if !(JUNIPER_SERIAL_REGEX serial_number) then
    (none, "Invalid Juniper Serial Number format (must be 12 alphanumeric characters).")
  else juniperBody serial_number

/-! ## Scrape-layer model -/

/-- A fetched page, modelled by the results of the queries the code
performs against the parsed markup: `soup.find(tag, class_=...)`,
`soup.find(tag, id=...)` (each `some text` when the first matching
element exists, carrying that element's `.text`) and the `<title>`
element's text. -/
structure Page where
  findTagClass : String → String → Option String
  findTagId : String → String → Option String
  titleText : Option String

/-- A structural selector as used by the resolvers: find the first
element with a given tag and class, or with a given tag and id. -/
inductive Selector where
  | tagClass (tag cls : String)
  | tagId (tag attrId : String)

/-- Apply a selector to a page. -/
def Page.findSel (p : Page) : Selector → Option String
  | .tagClass tag cls => p.findTagClass tag cls
  | .tagId tag attrId => p.findTagId tag attrId

/-- A page on which every query comes back empty. -/
def emptyPage : Page := ⟨fun _ _ => none, fun _ _ => none, none⟩

/-- The result of `requests.get(...)` + `response.raise_for_status()`:
either a fetched page, or one of the exception kinds the code
distinguishes.  `httpError` carries `response.status_code`; every failure
carries the exception's rendered text (what `f"...{e}"` interpolates). -/
inductive FetchOutcome where
  | success (soup : Page)
  | httpError (status : Nat) (text : String)
  | connectionError (text : String)
  | timeout (text : String)
  | requestError (text : String)

/-- True on every non-`success` fetch result. -/
def FetchOutcome.isFailure : FetchOutcome → Bool
  | .success _ => false
  | _ => true

/-! ### Title-regex searchers

Executable models of the `re.search` calls on the page title, with
Python's leftmost-match and lazy/greedy semantics specialised to each
concrete pattern (`.` does not match a newline). -/

/-- Lazy group of `re.search(r'Support for (.+?) \| Dell US', t)`: grow
the group one non-newline character at a time until `" | Dell US"`
follows. -/
def dellLazyGroup (acc : Str) : Str → Option Str
  | [] => none
  | c :: rs =>
      if c = '\n' then none
      else if (" | Dell US".data).isPrefixOf rs then some (acc ++ [c])
      else dellLazyGroup (acc ++ [c]) rs

/-- Leftmost match of `r'Support for (.+?) \| Dell US'`, returning the
captured group. -/
def dellSearchFrom : Str → Option Str
  | [] => none
  | c :: rs =>
      match (if ("Support for ".data).isPrefixOf (c :: rs)
             then dellLazyGroup [] (List.drop 12 (c :: rs))
             else none) with
      | some g => some g
      | none => dellSearchFrom rs

/-- `re.search(r'Support for (.+?) \| Dell US', t)` group 1. -/
def dellTitleSearchS (t : String) : Option String :=
  (dellSearchFrom t.data).map String.mk

/-- Consume one-or-more whitespace characters (`\s+`), returning the
rest; the following pattern parts start with non-whitespace, so the
greedy maximal run is complete. -/
def wsPlus : Str → Option Str
  | [] => none
  | c :: rs => if isPySpace c then some (rs.dropWhile isPySpace) else none

/-- Does `\s+\|\s+HP Product Information` match at the front of `l`? -/
def hpTailMatches (l : Str) : Bool :=
  match wsPlus l with
  | some l1 =>
      match l1 with
      | '|' :: l2 =>
          match wsPlus l2 with
          | some l3 => ("HP Product Information".data).isPrefixOf l3
          | none => false
      | _ => false
  | none => false

/-- Lazy group of `re.search(r'(.+?)\s+\|\s+HP Product Information', t)`. -/
def hpLazyGroup (acc : Str) : Str → Option Str
  | [] => none
  | c :: rs =>
      if c = '\n' then none
      else if hpTailMatches rs then some (acc ++ [c])
      else hpLazyGroup (acc ++ [c]) rs

/-- Leftmost match of `r'(.+?)\s+\|\s+HP Product Information'`. -/
def hpSearchFrom : Str → Option Str
  | [] => none
  | c :: rs =>
      match hpLazyGroup [] (c :: rs) with
      | some g => some g
      | none => hpSearchFrom rs

/-- `re.search(r'(.+?)\s+\|\s+HP Product Information', t)` group 1. -/
def hpTitleSearchS (t : String) : Option String :=
  (hpSearchFrom t.data).map String.mk

/-- After the literal `ViewSonic`: match `\s+([A-Z0-9]+)\s+Product` and
return the (greedy) group. -/
def vsAfterLiteral (l : Str) : Option Str :=
  match wsPlus l with
  | some l1 =>
      let grp := l1.takeWhile isUpperAlnum
      let rest := l1.dropWhile isUpperAlnum
      if grp.isEmpty then none
      else
        match wsPlus rest with
        | some r2 => if ("Product".data).isPrefixOf r2 then some grp else none
        | none => none
  | none => none

/-- Leftmost match of `r'ViewSonic\s+([A-Z0-9]+)\s+Product'`. -/
def vsSearchFrom : Str → Option Str
  | [] => none
  | c :: rs =>
      match (if ("ViewSonic".data).isPrefixOf (c :: rs)
             then vsAfterLiteral (List.drop 9 (c :: rs))
             else none) with
      | some g => some g
      | none => vsSearchFrom rs

/-- `re.search(r'ViewSonic\s+([A-Z0-9]+)\s+Product', t)` group 1. -/
def vsTitleSearchS (t : String) : Option String :=
  (vsSearchFrom t.data).map String.mk

/-! ### Scrape resolvers -/

/-- Post-processing of a Dell element text: `.strip()`, then
`re.sub(r'^Support for\s+', '', ., flags=re.IGNORECASE)`, then
`.strip()`. -/
def dellClean (t : String) : String :=
  String.mk (pyStrip (subLeadingVendor ("Support for".data) (pyStrip t.data)))

/-- Dell's "Attempt 3" block: the title-tag fallback.  Yields the
stripped captured group when the title exists, contains `Support for`,
the regex matches and the stripped group is non-empty; `none` otherwise
(in which case `get_dell_model_name` falls through to its final
no-match return). -/
def dellTitleStage (soup : Page) : Option String :=
  match soup.titleText with
  | some tt =>
      if hasSubstrS "Support for" tt then
        match dellTitleSearchS tt with
        | some g =>
            let model_name := pyStripS g
            if model_name ≠ "" then some model_name else none
        | none => none
      else none
  | none => none

/-- The parse part of `get_dell_model_name` (after a successful fetch):
`h1.product-name`, else `span#modelName`, else the title fallback. -/
def dellParse (soup : Page) : Option String × String :=
  match (soup.findTagClass "h1" "product-name").orElse
        (fun _ => soup.findTagId "span" "modelName") with
  | some el => (some (dellClean el), "Model name scraped successfully.")
  | none =>
      match dellTitleStage soup with
      | some model_name => (some model_name, "Model name scraped from page title (fallback).")
      | none => (none, "Could not find the product model name on the page.")

/-- Unguarded body of `get_dell_model_name`: the `try`/`except` around
the fetch, classified per exception kind, then the parse. -/
def dellBody (_service_tag : Str) (world : FetchOutcome) : Option String × String :=
  match world with
  | .success soup => dellParse soup
  | .httpError status errh =>
      if status = 404 then
        (none, "Service Tag found, but product page not found (404). It might be too old or invalid.")
      else (none, "HTTP Error: " ++ errh)
  | .connectionError errc => (none, "Error Connecting: " ++ errc)
  | .timeout errt => (none, "Timeout Error: " ++ errt)
  | .requestError err => (none, "An unexpected error occurred: " ++ err)

/-- `get_dell_model_name`. -/
def get_dell_model_name (service_tag : Str) (world : FetchOutcome) :
    Option String × String :=
  if !(SERVICE_TAG_REGEX service_tag) then
    (none, "Invalid Dell Service Tag format.")
  else dellBody service_tag world

/-- Post-processing of an HP element text: `.strip()`, then
`re.sub(r'^HP\s+', '', ., flags=re.IGNORECASE)`, then `.strip()`. -/
def hpClean (t : String) : String :=
  String.mk (pyStrip (subLeadingVendor ("HP".data) (pyStrip t.data)))

/-- HP's "Attempt 2" block: the title-tag fallback. -/
def hpTitleStage (soup : Page) : Option String :=
  match soup.titleText with
  | some tt =>
      if hasSubstrS "HP Product Information" tt then
        match hpTitleSearchS tt with
        | some g =>
            let model_name := pyStripS g
            if model_name ≠ "" then some model_name else none
        | none => none
      else none
  | none => none

/-- The parse part of `get_hp_model_name`: `h1.product-title`, else
`span.product-name` (first found element wins, even with empty text),
else the title fallback. -/
def hpParse (soup : Page) : Option String × String :=
  match (soup.findTagClass "h1" "product-title").orElse
        (fun _ => soup.findTagClass "span" "product-name") with
  | some el => (some (hpClean el), "Model name scraped successfully.")
  | none =>
      match hpTitleStage soup with
      | some model_name => (some model_name, "Model name scraped from page title (fallback).")
      | none => (none, "Could not find the product model name on the page.")

/-- Unguarded body of `get_hp_model_name`. -/
def hpBody (_serial_number : Str) (world : FetchOutcome) : Option String × String :=
  match world with
  | .success soup => hpParse soup
  | .httpError status errh =>
      if status = 404 then
        (none, "Serial Number found, but product page not found (404). It might be too old or invalid.")
      else (none, "HTTP Error: " ++ errh)
  | .connectionError errc => (none, "Error Connecting: " ++ errc)
  | .timeout errt => (none, "Timeout Error: " ++ errt)
  | .requestError err => (none, "An unexpected error occurred: " ++ err)

/-- `get_hp_model_name`. -/
def get_hp_model_name (serial_number : Str) (world : FetchOutcome) :
    Option String × String :=
  if !(HP_SERIAL_REGEX serial_number) then
    (none, "Invalid HP Serial Number format.")
  else hpBody serial_number world

/-- ViewSonic's "Attempt 2" block: the title-tag fallback. -/
def vsTitleStage (soup : Page) : Option String :=
  match soup.titleText with
  | some tt =>
      if hasSubstrS "ViewSonic" tt then
        match vsTitleSearchS tt with
        | some g =>
            let model_name := pyStripS g
            if model_name ≠ "" then some model_name else none
        | none => none
      else none
  | none => none

/-- The parse part of `get_viewsonic_model_name`: `h1.product-name`,
else `span.model-name` (first found element wins, text only stripped),
else the title fallback. -/
def viewsonicParse (soup : Page) : Option String × String :=
  match (soup.findTagClass "h1" "product-name").orElse
        (fun _ => soup.findTagClass "span" "model-name") with
  | some el => (some (pyStripS el), "Model name scraped successfully.")
  | none =>
      match vsTitleStage soup with
      | some model_name => (some model_name, "Model name scraped from page title (fallback).")
      | none => (none, "Could not find the product model name on the page.")

/-- Unguarded body of `get_viewsonic_model_name`. -/
def viewsonicBody (_serial_number : Str) (world : FetchOutcome) : Option String × String :=
  match world with
  | .success soup => viewsonicParse soup
  | .httpError status errh =>
      if status = 404 then
        (none, "Serial Number found, but product page not found (404). It might be too old or invalid.")
      else (none, "HTTP Error: " ++ errh)
  | .connectionError errc => (none, "Error Connecting: " ++ errc)
  | .timeout errt => (none, "Timeout Error: " ++ errt)
  | .requestError err => (none, "An unexpected error occurred: " ++ err)

/-- `get_viewsonic_model_name`. -/
def get_viewsonic_model_name (serial_number : Str) (world : FetchOutcome) :
    Option String × String :=
  if !(VIEWSONIC_SERIAL_REGEX serial_number) then
    (none, "Invalid ViewSonic Serial Number format.")
  else viewsonicBody serial_number world

/-- Unguarded body of `get_lenovo_model_name`: one `span.product-name or
h2.product-name` lookup; the found element's stripped text must be
non-empty; no title fallback.  All `requests` exceptions are caught by a
single `except RequestException` handler. -/
def lenovoBody (_serial_number : Str) (world : FetchOutcome) : Option String × String :=
  match world with
  | .success soup =>
      match (soup.findTagClass "span" "product-name").orElse
            (fun _ => soup.findTagClass "h2" "product-name") with
      | some el =>
          let model_name := pyStripS el
          if model_name ≠ "" then (some model_name, "Model found via web scraping.")
          else (none, "Model name element not found on Lenovo support page.")
      | none => (none, "Model name element not found on Lenovo support page.")
  | .httpError _ t => (none, "Request failed (Web scraping failed): " ++ t)
  | .connectionError t => (none, "Request failed (Web scraping failed): " ++ t)
  | .timeout t => (none, "Request failed (Web scraping failed): " ++ t)
  | .requestError t => (none, "Request failed (Web scraping failed): " ++ t)

/-- `get_lenovo_model_name`. -/
def get_lenovo_model_name (serial_number : Str) (world : FetchOutcome) :
    Option String × String :=
  if !(LENOVO_SERIAL_REGEX serial_number) then
    (none, "Invalid Lenovo Serial Number format (must be 8-12 alphanumeric characters).")
  else lenovoBody serial_number world

/-- The block `get_acer_model_name` reaches, after a successful fetch,
when no selector yields non-empty text: the 22-character serial-slice
fallback, else the no-match return. -/
def acerEmptyParse (serial_number : Str) : Option String × String :=
  if serial_number.length = 22 then
    (some ("Acer Product (Serial: " ++ String.mk (serial_number.take 5) ++ "...)"),
     "Model inferred from serial number prefix. Please verify.")
  else (none, "Model name element not found on Acer support page.")

/-- The `except RequestException` handler of `get_acer_model_name`:
22-character serial-slice fallback, else the SNID fallback, else the
raw request-failure diagnostic. -/
def acerRequestFailed (serial_number : Str) (t : String) : Option String × String :=
  if serial_number.length = 22 then
    (some ("Acer Product (Serial: " ++ String.mk (serial_number.take 5) ++ "...)"),
     "Model inferred from serial number prefix (Web scraping failed). Please verify.")
  else if 11 ≤ serial_number.length && pyIsDigit serial_number then
    (some ("Acer Product (SNID: " ++ String.mk serial_number ++ ")"),
     "Model inferred from SNID (Web scraping failed). Please verify.")
  else (none, "Request failed: " ++ t)

/-- Unguarded body of `get_acer_model_name`: `h1.product-name or
h2.product-name`; a found element's stripped text must be non-empty,
otherwise (and also when no element is found) the success path falls to
`acerEmptyParse`; all `requests` exceptions go to `acerRequestFailed`. -/
def acerBody (serial_number : Str) (world : FetchOutcome) : Option String × String :=
  match world with
  | .success soup =>
      match (soup.findTagClass "h1" "product-name").orElse
            (fun _ => soup.findTagClass "h2" "product-name") with
      | some el =>
          let model_name := pyStripS el
          if model_name ≠ "" then (some model_name, "Model found via web scraping.")
          else acerEmptyParse serial_number
      | none => acerEmptyParse serial_number
  | .httpError _ t => acerRequestFailed serial_number t
  | .connectionError t => acerRequestFailed serial_number t
  | .timeout t => acerRequestFailed serial_number t
  | .requestError t => acerRequestFailed serial_number t

/-- `get_acer_model_name`. -/
def get_acer_model_name (serial_number : Str) (world : FetchOutcome) :
    Option String × String :=
  if !(ACER_SERIAL_REGEX serial_number) then
    (none, "Invalid Acer Serial Number/SNID format (must be 22 alphanumeric or 11/12 digit SNID).")
  else acerBody serial_number world

/-! ## Route layer and dispatcher -/

/-- A route's JSON response, by shape: `missing`/`invalid` render with
HTTP 400, `notFound` with 404, `ok` with 200. -/
inductive LookupResponse where
  | missing (errMsg : String)
  | invalid (errMsg : String)
  | notFound (serial : Str) (errMsg : String)
  | ok (serial : Str) (model : String) (message : String)
deriving DecidableEq

/-- The HTTP status each response shape renders with. -/
def LookupResponse.status : LookupResponse → Nat
  | .missing _ => 400
  | .invalid _ => 400
  | .notFound _ _ => 404
  | .ok _ _ _ => 200

/-- The shared shape of every `/lookup/<vendor>` route handler:
`request.args.get('tag','').upper()`, the empty-identifier check, the
vendor regex check, the resolver call, and the truthiness test
`if model_name:` deciding between the 200 and 404 payloads. -/
def routeLookup (missingMsg invalidMsg : String) (regex : Str → Bool)
    (resolver : Str → Option String × String) (tagArg : Option Str) : LookupResponse :=
  let serial := pyUpper (tagArg.getD [])
  if serial.isEmpty then .missing missingMsg
  else if !(regex serial) then .invalid invalidMsg
  else
    match resolver serial with
    | (some model_name, message) =>
        if model_name ≠ "" then .ok serial model_name message
        else .notFound serial message
    | (none, message) => .notFound serial message

/-- Route `/lookup/dell`. -/
def lookup_dell_service_tag (tagArg : Option Str) (world : FetchOutcome) : LookupResponse :=
  routeLookup "Missing service tag parameter."
    "Invalid Dell Service Tag format (must be 7 alphanumeric characters)."
    SERVICE_TAG_REGEX (fun s => get_dell_model_name s world) tagArg

/-- Route `/lookup/tcl`. -/
def lookup_tcl_serial_number (tagArg : Option Str) : LookupResponse :=
  routeLookup "Missing serial number parameter." "Invalid TCL Serial Number format."
    TCL_SERIAL_REGEX get_tcl_model_name tagArg

/-- Route `/lookup/vizio`. -/
def lookup_vizio_serial_number (tagArg : Option Str) : LookupResponse :=
  routeLookup "Missing serial number parameter." "Invalid Vizio Serial Number format."
    VIZIO_SERIAL_REGEX get_vizio_model_name tagArg

/-- Route `/lookup/samsung`. -/
def lookup_samsung_serial_number (tagArg : Option Str) : LookupResponse :=
  routeLookup "Missing serial number parameter." "Invalid Samsung Serial Number format."
    SAMSUNG_SERIAL_REGEX get_samsung_model_name tagArg

/-- Route `/lookup/microsoft`. -/
def lookup_microsoft_serial_number (tagArg : Option Str) : LookupResponse :=
  routeLookup "Missing serial number parameter." "Invalid Microsoft Serial Number format."
    MICROSOFT_SERIAL_REGEX get_microsoft_model_name tagArg

/-- Route `/lookup/apc`. -/
def lookup_apc_serial_number (tagArg : Option Str) : LookupResponse :=
  routeLookup "Missing serial number parameter." "Invalid APC Serial Number format."
    APC_SERIAL_REGEX get_apc_model_name tagArg

/-- Route `/lookup/cisco`. -/
def lookup_cisco_serial_number (tagArg : Option Str) : LookupResponse :=
  routeLookup "Missing serial number parameter." "Invalid Cisco Serial Number format."
    CISCO_SERIAL_REGEX get_cisco_model_name tagArg

/-- Route `/lookup/lenovo`. -/
def lookup_lenovo_serial_number (tagArg : Option Str) (world : FetchOutcome) : LookupResponse :=
  routeLookup "Missing serial number parameter." "Invalid Lenovo Serial Number format."
    LENOVO_SERIAL_REGEX (fun s => get_lenovo_model_name s world) tagArg

/-- Route `/lookup/acer`. -/
def lookup_acer_serial_number (tagArg : Option Str) (world : FetchOutcome) : LookupResponse :=
  routeLookup "Missing serial number parameter." "Invalid Acer Serial Number/SNID format."
    ACER_SERIAL_REGEX (fun s => get_acer_model_name s world) tagArg

/-- Route `/lookup/apple`. -/
def lookup_apple_serial_number (tagArg : Option Str) : LookupResponse :=
  routeLookup "Missing serial number parameter."
    "Invalid Apple Serial Number format (must be 12 or 17 alphanumeric characters)."
    APPLE_SERIAL_REGEX get_apple_model_name tagArg

/-- Route `/lookup/brother`. -/
def lookup_brother_serial_number (tagArg : Option Str) : LookupResponse :=
  routeLookup "Missing serial number parameter."
    "Invalid Brother Serial Number format (must be 15 alphanumeric characters)."
    BROTHER_SERIAL_REGEX get_brother_model_name tagArg

/-- Route `/lookup/cyberpower`. -/
def lookup_cyberpower_serial_number (tagArg : Option Str) : LookupResponse :=
  routeLookup "Missing serial number parameter."
    "Invalid CyberPower Serial Number format (must be 12 or 16 alphanumeric characters)."
    CYBERPOWER_SERIAL_REGEX get_cyberpower_model_name tagArg

/-- Route `/lookup/juniper`. -/
def lookup_juniper_serial_number (tagArg : Option Str) : LookupResponse :=
  routeLookup "Missing serial number parameter."
    "Invalid Juniper Serial Number format (must be 12 alphanumeric characters)."
    JUNIPER_SERIAL_REGEX get_juniper_model_name tagArg

/-- Route `/lookup/viewsonic`. -/
def lookup_viewsonic_serial_number (tagArg : Option Str) (world : FetchOutcome) : LookupResponse :=
  routeLookup "Missing serial number parameter."
    "Invalid ViewSonic Serial Number format (must be 10-12 alphanumeric characters)."
    VIEWSONIC_SERIAL_REGEX (fun s => get_viewsonic_model_name s world) tagArg

/-- Route `/lookup/hp`. -/
def lookup_hp_serial_number (tagArg : Option Str) (world : FetchOutcome) : LookupResponse :=
  routeLookup "Missing serial number parameter."
    "Invalid HP Serial Number format (must be 10-12 alphanumeric characters)."
    HP_SERIAL_REGEX (fun s => get_hp_model_name s world) tagArg

/-- The supported vendors (one per `/lookup/<vendor>` route). -/
inductive Vendor where
  | dell | hp | lenovo | acer | viewsonic
  | apple | cisco | juniper | apc | cyberpower
  | brother | samsung | microsoft | vizio | tcl
deriving DecidableEq

/-- The dispatcher: route a `(vendor, raw identifier)` pair to the
vendor's route handler.  Inference vendors ignore the fetch outcome
(they perform no network I/O). -/
def resolve : Vendor → Option Str → FetchOutcome → LookupResponse
  | .dell, tagArg, world => lookup_dell_service_tag tagArg world
  | .hp, tagArg, world => lookup_hp_serial_number tagArg world
  | .lenovo, tagArg, world => lookup_lenovo_serial_number tagArg world
  | .acer, tagArg, world => lookup_acer_serial_number tagArg world
  | .viewsonic, tagArg, world => lookup_viewsonic_serial_number tagArg world
  | .apple, tagArg, _ => lookup_apple_serial_number tagArg
  | .cisco, tagArg, _ => lookup_cisco_serial_number tagArg
  | .juniper, tagArg, _ => lookup_juniper_serial_number tagArg
  | .apc, tagArg, _ => lookup_apc_serial_number tagArg
  | .cyberpower, tagArg, _ => lookup_cyberpower_serial_number tagArg
  | .brother, tagArg, _ => lookup_brother_serial_number tagArg
  | .samsung, tagArg, _ => lookup_samsung_serial_number tagArg
  | .microsoft, tagArg, _ => lookup_microsoft_serial_number tagArg
  | .vizio, tagArg, _ => lookup_vizio_serial_number tagArg
  | .tcl, tagArg, _ => lookup_tcl_serial_number tagArg

/-- The uniform outcome type of the spec's §3 data model. -/
structure ResolutionOutcome where
  model_name : Option String
  diagnostic : String
  matched : Bool
deriving DecidableEq

/-- Read a route response as a `ResolutionOutcome`: a 200 payload is a
match carrying `model_name`/`message`; 400/404 payloads are non-matches
carrying the `error` diagnostic. -/
def outcomeOf : LookupResponse → ResolutionOutcome
  | .missing e => ⟨none, e, false⟩
  | .invalid e => ⟨none, e, false⟩
  | .notFound _ e => ⟨none, e, false⟩
  | .ok _ m msg => ⟨some m, msg, true⟩

/-- The `Missing ... parameter.` diagnostic each route uses. -/
def missingMsgOf : Vendor → String
  | .dell => "Missing service tag parameter."
  | _ => "Missing serial number parameter."

/-- The validation regex each route (and its resolver) uses. -/
def vendorRegex : Vendor → Str → Bool
  | .dell => SERVICE_TAG_REGEX
  | .hp => HP_SERIAL_REGEX
  | .lenovo => LENOVO_SERIAL_REGEX
  | .acer => ACER_SERIAL_REGEX
  | .viewsonic => VIEWSONIC_SERIAL_REGEX
  | .apple => APPLE_SERIAL_REGEX
  | .cisco => CISCO_SERIAL_REGEX
  | .juniper => JUNIPER_SERIAL_REGEX
  | .apc => APC_SERIAL_REGEX
  | .cyberpower => CYBERPOWER_SERIAL_REGEX
  | .brother => BROTHER_SERIAL_REGEX
  | .samsung => SAMSUNG_SERIAL_REGEX
  | .microsoft => MICROSOFT_SERIAL_REGEX
  | .vizio => VIZIO_SERIAL_REGEX
  | .tcl => TCL_SERIAL_REGEX

/-- The model an outcome carries when the route reports a match (`none`
when the resolver produced no model or an empty one — both render as a
404 no-match).  Mirrors the route's `if model_name:` truthiness test at
the resolver level. -/
def matchedModel (r : Option String × String) : Option String :=
  match r.fst with
  | some m => if m = "" then none else some m
  | none => none

/-! ## Spec-side definitions

These follow the words of the specification (not the source) and are
used only to state refinement claims comparing the code against the
spec's description. -/

/-- Modelled from the spec: one extraction stage as §4.3 describes it — a
structural selector whose found element's (trimmed) text counts only
when non-empty. -/
def selStage (page : Page) (sel : Selector) : Option String :=
  match page.findSel sel with
  | some t => if pyStripS t ≠ "" then some (pyStripS t) else none
  | none => none

/-- Modelled from the spec: §4.3's fixed fallback order — primary
selector, then secondary selector, then a vendor-specific regex applied
to the page's title element, the first non-empty (trimmed) match
winning, `none` only if all three stages fail. -/
def threeStageChain (a b : Selector) (titleRegex : String → Option String)
    (page : Page) : Option String :=
  (selStage page a).orElse fun _ =>
    (selStage page b).orElse fun _ =>
      match page.titleText with
      | some tt =>
          match titleRegex tt with
          | some g => if pyStripS g ≠ "" then some (pyStripS g) else none
          | none => none
      | none => none

/-- Spec rule for Dell: exactly 7 alphanumeric. -/
def specRuleDell (s : Str) : Prop :=
  s.length = 7 ∧ ∀ c ∈ s, c.isAlpha = true ∨ c.isDigit = true

/-- Spec rule for HP: 10-12 alphanumeric. -/
def specRuleHP (s : Str) : Prop :=
  10 ≤ s.length ∧ s.length ≤ 12 ∧ ∀ c ∈ s, c.isAlpha = true ∨ c.isDigit = true

/-- Spec rule for ViewSonic: 10-12 alphanumeric. -/
def specRuleViewSonic (s : Str) : Prop :=
  10 ≤ s.length ∧ s.length ≤ 12 ∧ ∀ c ∈ s, c.isAlpha = true ∨ c.isDigit = true

/-- Spec rule for Juniper: exactly 12 alphanumeric. -/
def specRuleJuniper (s : Str) : Prop :=
  s.length = 12 ∧ ∀ c ∈ s, c.isAlpha = true ∨ c.isDigit = true

/-- Spec rule for CyberPower: exactly 12 or exactly 16 alphanumeric. -/
def specRuleCyberPower (s : Str) : Prop :=
  (s.length = 12 ∨ s.length = 16) ∧ ∀ c ∈ s, c.isAlpha = true ∨ c.isDigit = true

/-- Spec rule for Brother: exactly 15 alphanumeric. -/
def specRuleBrother (s : Str) : Prop :=
  s.length = 15 ∧ ∀ c ∈ s, c.isAlpha = true ∨ c.isDigit = true

/-- Spec rule for Apple: exactly 12 or exactly 17 alphanumeric. -/
def specRuleApple (s : Str) : Prop :=
  (s.length = 12 ∨ s.length = 17) ∧ ∀ c ∈ s, c.isAlpha = true ∨ c.isDigit = true

/-- Spec rule for Acer: exactly 22 alphanumeric, or an 11-12 digit SNID. -/
def specRuleAcer (s : Str) : Prop :=
  (s.length = 22 ∧ ∀ c ∈ s, c.isAlpha = true ∨ c.isDigit = true) ∨
  (11 ≤ s.length ∧ s.length ≤ 12 ∧ ∀ c ∈ s, c.isDigit = true)

/-- Spec rule for Lenovo: 8-12 alphanumeric. -/
def specRuleLenovo (s : Str) : Prop :=
  8 ≤ s.length ∧ s.length ≤ 12 ∧ ∀ c ∈ s, c.isAlpha = true ∨ c.isDigit = true

/-- Spec rule for Cisco: 3 uppercase letters followed by 8 digits. -/
def specRuleCisco (s : Str) : Prop :=
  s.length = 11 ∧ (∀ c ∈ s.take 3, c.isUpper = true) ∧ ∀ c ∈ s.drop 3, c.isDigit = true

/-- Spec rule for APC: exactly 12 uppercase-alphanumeric. -/
def specRuleAPC (s : Str) : Prop :=
  s.length = 12 ∧ ∀ c ∈ s, c.isUpper = true ∨ c.isDigit = true

/-- Spec rule for Microsoft: 12 digits, or 16 digits, or 12
uppercase-alphanumeric. -/
def specRuleMicrosoft (s : Str) : Prop :=
  (s.length = 12 ∧ ∀ c ∈ s, c.isDigit = true) ∨
  (s.length = 16 ∧ ∀ c ∈ s, c.isDigit = true) ∨
  (s.length = 12 ∧ ∀ c ∈ s, c.isUpper = true ∨ c.isDigit = true)

/-- Spec rule for Samsung: exactly 11 or exactly 15 uppercase-alphanumeric. -/
def specRuleSamsung (s : Str) : Prop :=
  (s.length = 11 ∨ s.length = 15) ∧ ∀ c ∈ s, c.isUpper = true ∨ c.isDigit = true

/-- Spec rule for Vizio: exactly 14 uppercase-alphanumeric. -/
def specRuleVizio (s : Str) : Prop :=
  s.length = 14 ∧ ∀ c ∈ s, c.isUpper = true ∨ c.isDigit = true

/-- Spec rule for TCL: 12-14 uppercase-alphanumeric. -/
def specRuleTCL (s : Str) : Prop :=
  12 ≤ s.length ∧ s.length ≤ 14 ∧ ∀ c ∈ s, c.isUpper = true ∨ c.isDigit = true

/-- A page whose only content is an `h1.product-name` element with text
`" XPS 13 "`. -/
def demoElemPage : Page :=
  ⟨fun tag cls => if tag = "h1" ∧ cls = "product-name" then some " XPS 13 " else none,
   fun _ _ => none, none⟩

/-- A page with no elements but a Dell-style title. -/
def demoTitlePage : Page :=
  ⟨fun _ _ => none, fun _ _ => none, some "Support for ThinkPad X1 | Dell US"⟩

/-! ## Shared lemmas -/

/-- Appending to a non-empty string stays non-empty. -/
theorem str_append_ne_empty (s t : String) (h : s ≠ "") : s ++ t ≠ "" := by
  intro he
  apply h
  cases s with
  | mk a =>
    cases t with
    | mk b =>
      have hab : a ++ b = [] := by
        have := congrArg String.data he
        simpa [String.data] using this
      rcases List.append_eq_nil.mp hab with ⟨ha, _⟩
      simp [ha]

/-- On a string without a trailing newline, the anchored-regex match is
just the core pattern match. -/
theorem pyMatchAnchored_collapse (core : Str → Bool) (l : Str)
    (h : l.getLast? ≠ some '\n') : pyMatchAnchored core l = core l := by
  unfold pyMatchAnchored
  have hb : (l.getLast? == some '\n') = false := by
    simp only [beq_eq_false_iff_ne, ne_eq]
    exact h
  rw [hb]
  simp

/-- Every diagnostic `get_apple_model_name` produces is non-empty. -/
theorem apple_snd_ne (s : Str) : (get_apple_model_name s).snd ≠ "" := by
  unfold get_apple_model_name appleBody
  by_cases h : APPLE_SERIAL_REGEX s
  · simp only [h]
    cases hl : apple_prefix_to_model.lookup (String.mk (pyUpper (s.take 3))) with
    | none => simp [hl]
    | some m =>
        simp only [hl]
        exact str_append_ne_empty _ _ (str_append_ne_empty _ _ (by decide))
  · simp [h]

/-- Every diagnostic `get_cisco_model_name` produces is non-empty. -/
theorem cisco_snd_ne (s : Str) : (get_cisco_model_name s).snd ≠ "" := by
  unfold get_cisco_model_name ciscoBody
  by_cases h : CISCO_SERIAL_REGEX s
  · simp only [h]
    cases hl : cisco_prefix_to_model.lookup (String.mk (pyUpper (s.take 3))) with
    | none => simp [hl]
    | some m =>
        simp only [hl]
        exact str_append_ne_empty _ _ (str_append_ne_empty _ _ (by decide))
  · simp [h]

/-- Every diagnostic `get_tcl_model_name` produces is non-empty. -/
theorem tcl_snd_ne (s : Str) : (get_tcl_model_name s).snd ≠ "" := by
  unfold get_tcl_model_name tclBody
  by_cases h : TCL_SERIAL_REGEX s <;> simp [h]

/-- Every diagnostic `get_vizio_model_name` produces is non-empty. -/
theorem vizio_snd_ne (s : Str) : (get_vizio_model_name s).snd ≠ "" := by
  unfold get_vizio_model_name vizioBody
  by_cases h : VIZIO_SERIAL_REGEX s
  · simp only [h]
    cases hl : vizio_model_map.lookup (String.mk (s.take 4)) with
    | none => simp [hl]
    | some m =>
        simp only [hl]
        exact str_append_ne_empty _ _ (str_append_ne_empty _ _ (by decide))
  · simp [h]

/-- Every diagnostic `get_samsung_model_name` produces is non-empty. -/
theorem samsung_snd_ne (s : Str) : (get_samsung_model_name s).snd ≠ "" := by
  unfold get_samsung_model_name samsungBody
  by_cases h : SAMSUNG_SERIAL_REGEX s <;> simp [h]

/-- Every diagnostic `get_microsoft_model_name` produces is non-empty. -/
theorem microsoft_snd_ne (s : Str) : (get_microsoft_model_name s).snd ≠ "" := by
  unfold get_microsoft_model_name microsoftBody
  by_cases h : MICROSOFT_SERIAL_REGEX s <;> simp [h]

/-- Every diagnostic `get_apc_model_name` produces is non-empty. -/
theorem apc_snd_ne (s : Str) : (get_apc_model_name s).snd ≠ "" := by
  unfold get_apc_model_name apcBody
  by_cases h : APC_SERIAL_REGEX s
  · simp only [h]
    cases hl : apc_prefix_to_model.lookup (String.mk (pyUpper (s.take 2))) with
    | none => simp [hl]
    | some m =>
        simp only [hl]
        exact str_append_ne_empty _ _ (str_append_ne_empty _ _ (by decide))
  · simp [h]

/-- Every diagnostic `get_brother_model_name` produces is non-empty. -/
theorem brother_snd_ne (s : Str) : (get_brother_model_name s).snd ≠ "" := by
  unfold get_brother_model_name brotherBody
  by_cases h : BROTHER_SERIAL_REGEX s
  · simp only [h]
    cases hl : brother_prefix_to_model.lookup (String.mk (pyUpper (s.take 2))) with
    | none => simp [hl]
    | some m =>
        simp only [hl]
        exact str_append_ne_empty _ _ (str_append_ne_empty _ _ (by decide))
  · simp [h]

/-- Every diagnostic `get_cyberpower_model_name` produces is non-empty. -/
theorem cyberpower_snd_ne (s : Str) : (get_cyberpower_model_name s).snd ≠ "" := by
  unfold get_cyberpower_model_name cyberpowerBody
  by_cases h : CYBERPOWER_SERIAL_REGEX s
  · simp only [h]
    cases hl : cyberpower_prefix_to_model.lookup (String.mk (pyUpper (s.take 3))) with
    | none =>
        cases hl2 : cyberpower_prefix_to_model.lookup (String.mk (pyUpper (s.take 2))) with
        | none => simp [hl, hl2]
        | some m =>
            simp only [hl, hl2]
            exact str_append_ne_empty _ _ (str_append_ne_empty _ _ (by decide))
    | some m =>
        simp only [hl]
        exact str_append_ne_empty _ _ (str_append_ne_empty _ _ (by decide))
  · simp [h]

/-- Every diagnostic `get_juniper_model_name` produces is non-empty. -/
theorem juniper_snd_ne (s : Str) : (get_juniper_model_name s).snd ≠ "" := by
  unfold get_juniper_model_name juniperBody
  by_cases h : JUNIPER_SERIAL_REGEX s
  · simp only [h]
    cases hl : juniper_prefix_to_model.lookup (String.mk (pyUpper (s.take 2))) with
    | none => simp [hl]
    | some m =>
        simp only [hl]
        exact str_append_ne_empty _ _ (str_append_ne_empty _ _ (by decide))
  · simp [h]

/-- Every diagnostic `dellParse` produces is non-empty. -/
theorem dellParse_snd_ne (p : Page) : (dellParse p).snd ≠ "" := by
  unfold dellParse
  cases h : (p.findTagClass "h1" "product-name").orElse (fun _ => p.findTagId "span" "modelName") with
  | some el => simp [h]
  | none =>
      cases h2 : dellTitleStage p with
      | some m => simp [h, h2]
      | none => simp [h, h2]

/-- Every diagnostic `get_dell_model_name` produces is non-empty. -/
theorem dell_snd_ne (s : Str) (w : FetchOutcome) : (get_dell_model_name s w).snd ≠ "" := by
  unfold get_dell_model_name dellBody
  by_cases h : SERVICE_TAG_REGEX s
  · simp only [h]
    cases w with
    | success soup => simpa using dellParse_snd_ne soup
    | httpError st t =>
        by_cases h4 : st = 404
        · simp [h4]
        · simp only [h4, if_false, Bool.not_true]
          exact str_append_ne_empty _ _ (by decide)
    | connectionError t => exact str_append_ne_empty _ _ (by decide)
    | timeout t => exact str_append_ne_empty _ _ (by decide)
    | requestError t => exact str_append_ne_empty _ _ (by decide)
  · simp [h]

/-- Every diagnostic `hpParse` produces is non-empty. -/
theorem hpParse_snd_ne (p : Page) : (hpParse p).snd ≠ "" := by
  unfold hpParse
  cases h : (p.findTagClass "h1" "product-title").orElse (fun _ => p.findTagClass "span" "product-name") with
  | some el => simp [h]
  | none =>
      cases h2 : hpTitleStage p with
      | some m => simp [h, h2]
      | none => simp [h, h2]

/-- Every diagnostic `get_hp_model_name` produces is non-empty. -/
theorem hp_snd_ne (s : Str) (w : FetchOutcome) : (get_hp_model_name s w).snd ≠ "" := by
  unfold get_hp_model_name hpBody
  by_cases h : HP_SERIAL_REGEX s
  · simp only [h]
    cases w with
    | success soup => simpa using hpParse_snd_ne soup
    | httpError st t =>
        by_cases h4 : st = 404
        · simp [h4]
        · simp only [h4, if_false, Bool.not_true]
          exact str_append_ne_empty _ _ (by decide)
    | connectionError t => exact str_append_ne_empty _ _ (by decide)
    | timeout t => exact str_append_ne_empty _ _ (by decide)
    | requestError t => exact str_append_ne_empty _ _ (by decide)
  · simp [h]

/-- Every diagnostic `viewsonicParse` produces is non-empty. -/
theorem viewsonicParse_snd_ne (p : Page) : (viewsonicParse p).snd ≠ "" := by
  unfold viewsonicParse
  cases h : (p.findTagClass "h1" "product-name").orElse (fun _ => p.findTagClass "span" "model-name") with
  | some el => simp [h]
  | none =>
      cases h2 : vsTitleStage p with
      | some m => simp [h, h2]
      | none => simp [h, h2]

/-- Every diagnostic `get_viewsonic_model_name` produces is non-empty. -/
theorem viewsonic_snd_ne (s : Str) (w : FetchOutcome) :
    (get_viewsonic_model_name s w).snd ≠ "" := by
  unfold get_viewsonic_model_name viewsonicBody
  by_cases h : VIEWSONIC_SERIAL_REGEX s
  · simp only [h]
    cases w with
    | success soup => simpa using viewsonicParse_snd_ne soup
    | httpError st t =>
        by_cases h4 : st = 404
        · simp [h4]
        · simp only [h4, if_false, Bool.not_true]
          exact str_append_ne_empty _ _ (by decide)
    | connectionError t => exact str_append_ne_empty _ _ (by decide)
    | timeout t => exact str_append_ne_empty _ _ (by decide)
    | requestError t => exact str_append_ne_empty _ _ (by decide)
  · simp [h]

/-- Every diagnostic `get_lenovo_model_name` produces is non-empty. -/
theorem lenovo_snd_ne (s : Str) (w : FetchOutcome) : (get_lenovo_model_name s w).snd ≠ "" := by
  unfold get_lenovo_model_name lenovoBody
  by_cases h : LENOVO_SERIAL_REGEX s
  · simp only [h]
    cases w with
    | success soup =>
        cases h2 : (soup.findTagClass "span" "product-name").orElse
            (fun _ => soup.findTagClass "h2" "product-name") with
        | some el =>
            by_cases h3 : pyStripS el ≠ "" <;> simp [h2, h3]
        | none => simp [h2]
    | httpError st t => exact str_append_ne_empty _ _ (by decide)
    | connectionError t => exact str_append_ne_empty _ _ (by decide)
    | timeout t => exact str_append_ne_empty _ _ (by decide)
    | requestError t => exact str_append_ne_empty _ _ (by decide)
  · simp [h]

/-- Every diagnostic `acerEmptyParse` produces is non-empty. -/
theorem acerEmptyParse_snd_ne (s : Str) : (acerEmptyParse s).snd ≠ "" := by
  unfold acerEmptyParse
  by_cases h : s.length = 22 <;> simp [h]

/-- Every diagnostic `acerRequestFailed` produces is non-empty. -/
theorem acerRequestFailed_snd_ne (s : Str) (t : String) :
    (acerRequestFailed s t).snd ≠ "" := by
  unfold acerRequestFailed
  by_cases h : s.length = 22
  · simp [h]
  · by_cases h2 : (11 ≤ s.length && pyIsDigit s) = true
    · simp [h, h2]
    · simp only [h, if_false, h2]
      exact str_append_ne_empty _ _ (by decide)

/-- Every diagnostic `get_acer_model_name` produces is non-empty. -/
theorem acer_snd_ne (s : Str) (w : FetchOutcome) : (get_acer_model_name s w).snd ≠ "" := by
  unfold get_acer_model_name acerBody
  by_cases h : ACER_SERIAL_REGEX s
  · simp only [h]
    cases w with
    | success soup =>
        cases h2 : (soup.findTagClass "h1" "product-name").orElse
            (fun _ => soup.findTagClass "h2" "product-name") with
        | some el =>
            by_cases h3 : pyStripS el ≠ ""
            · simp [h2, h3]
            · simpa [h2, h3] using acerEmptyParse_snd_ne s
        | none => simpa [h2] using acerEmptyParse_snd_ne s
    | httpError st t => simpa using acerRequestFailed_snd_ne s t
    | connectionError t => simpa using acerRequestFailed_snd_ne s t
    | timeout t => simpa using acerRequestFailed_snd_ne s t
    | requestError t => simpa using acerRequestFailed_snd_ne s t
  · simp [h]

/-- The shape-level invariant of a route handler: for any resolver whose
diagnostics are never empty, the rendered outcome's diagnostic is
non-empty and `matched` holds exactly when a non-empty model is carried. -/
theorem routeLookup_outcome (mm im : String) (rg : Str → Bool)
    (res : Str → Option String × String) (arg : Option Str)
    (hmm : mm ≠ "") (him : im ≠ "")
    (hres : ∀ s, (res s).snd ≠ "") :
    (outcomeOf (routeLookup mm im rg res arg)).diagnostic ≠ "" ∧
    ((outcomeOf (routeLookup mm im rg res arg)).matched = true ↔
      ∃ m, (outcomeOf (routeLookup mm im rg res arg)).model_name = some m ∧ m ≠ "") := by
  unfold routeLookup
  by_cases h1 : (pyUpper (arg.getD [])).isEmpty
  · simp [h1, outcomeOf, hmm]
  · by_cases h2 : rg (pyUpper (arg.getD []))
    · rcases hr : res (pyUpper (arg.getD [])) with ⟨om, msg⟩
      have hmsg : msg ≠ "" := by
        have := hres (pyUpper (arg.getD []))
        rw [hr] at this
        exact this
      cases om with
      | none => simp [h1, h2, hr, outcomeOf, hmsg]
      | some m =>
        by_cases hm : m = ""
        · simp [h1, h2, hr, outcomeOf, hm, hmsg]
        · simp [h1, h2, hr, outcomeOf, hm, hmsg]
    · simp [h1, h2, outcomeOf, him]

/-- A route rejects a non-empty identifier failing its regex with the
`invalid` 400 response, before the resolver runs. -/
theorem routeLookup_invalid (mm im : String) (rg : Str → Bool)
    (res : Str → Option String × String) (arg : Option Str)
    (h1 : (pyUpper (arg.getD [])).isEmpty = false)
    (h2 : rg (pyUpper (arg.getD [])) = false) :
    routeLookup mm im rg res arg = .invalid im := by
  unfold routeLookup
  simp [h1, h2]

/-- The outcome of a route-level validation rejection is a non-match. -/
theorem routeLookup_invalid_matched (mm im : String) (rg : Str → Bool)
    (res : Str → Option String × String) (arg : Option Str)
    (h1 : (pyUpper (arg.getD [])).isEmpty = false)
    (h2 : rg (pyUpper (arg.getD [])) = false) :
    (outcomeOf (routeLookup mm im rg res arg)).matched = false := by
  rw [routeLookup_invalid mm im rg res arg h1 h2]
  rfl

/-- On every failed fetch, the Dell resolver reports no model. -/
theorem dell_fail_none (s : Str) (w : FetchOutcome) (hfail : w.isFailure = true) :
    (get_dell_model_name s w).fst = none := by
  by_cases hreg : SERVICE_TAG_REGEX s
  · cases w with
    | success soup => simp [FetchOutcome.isFailure] at hfail
    | httpError st t => by_cases h4 : st = 404 <;> simp [get_dell_model_name, hreg, dellBody, h4]
    | connectionError t => simp [get_dell_model_name, hreg, dellBody]
    | timeout t => simp [get_dell_model_name, hreg, dellBody]
    | requestError t => simp [get_dell_model_name, hreg, dellBody]
  · simp [get_dell_model_name, hreg]

/-- On every failed fetch, the HP resolver reports no model. -/
theorem hp_fail_none (s : Str) (w : FetchOutcome) (hfail : w.isFailure = true) :
    (get_hp_model_name s w).fst = none := by
  by_cases hreg : HP_SERIAL_REGEX s
  · cases w with
    | success soup => simp [FetchOutcome.isFailure] at hfail
    | httpError st t => by_cases h4 : st = 404 <;> simp [get_hp_model_name, hreg, hpBody, h4]
    | connectionError t => simp [get_hp_model_name, hreg, hpBody]
    | timeout t => simp [get_hp_model_name, hreg, hpBody]
    | requestError t => simp [get_hp_model_name, hreg, hpBody]
  · simp [get_hp_model_name, hreg]

/-- On every failed fetch, the Lenovo resolver reports no model. -/
theorem lenovo_fail_none (s : Str) (w : FetchOutcome) (hfail : w.isFailure = true) :
    (get_lenovo_model_name s w).fst = none := by
  by_cases hreg : LENOVO_SERIAL_REGEX s
  · cases w with
    | success soup => simp [FetchOutcome.isFailure] at hfail
    | httpError st t => simp [get_lenovo_model_name, hreg, lenovoBody]
    | connectionError t => simp [get_lenovo_model_name, hreg, lenovoBody]
    | timeout t => simp [get_lenovo_model_name, hreg, lenovoBody]
    | requestError t => simp [get_lenovo_model_name, hreg, lenovoBody]
  · simp [get_lenovo_model_name, hreg]

/-- On every failed fetch, the ViewSonic resolver reports no model. -/
theorem viewsonic_fail_none (s : Str) (w : FetchOutcome) (hfail : w.isFailure = true) :
    (get_viewsonic_model_name s w).fst = none := by
  by_cases hreg : VIEWSONIC_SERIAL_REGEX s
  · cases w with
    | success soup => simp [FetchOutcome.isFailure] at hfail
    | httpError st t =>
        by_cases h4 : st = 404 <;> simp [get_viewsonic_model_name, hreg, viewsonicBody, h4]
    | connectionError t => simp [get_viewsonic_model_name, hreg, viewsonicBody]
    | timeout t => simp [get_viewsonic_model_name, hreg, viewsonicBody]
    | requestError t => simp [get_viewsonic_model_name, hreg, viewsonicBody]
  · simp [get_viewsonic_model_name, hreg]

/-- On every failed fetch, the Acer resolver recovers a matched fallback
for every identifier matching the Acer core pattern (22 alphanumeric, or
11-12 digit SNID). -/
theorem acer_fail_matched (s : Str) (w : FetchOutcome)
    (hfail : w.isFailure = true) (hcore : acerCore s = true) :
    (get_acer_model_name s w).fst ≠ none := by
  have hreg : ACER_SERIAL_REGEX s = true := by
    unfold ACER_SERIAL_REGEX pyMatchAnchored
    rw [hcore]
    simp
  have hfb : (acerRequestFailed s "x").fst ≠ none ∧
      ∀ t, acerRequestFailed s t = acerRequestFailed s "x" := by
    constructor
    · unfold acerRequestFailed
      rcases (by simpa [acerCore, List.all_eq_true] using hcore) with ⟨h22, _⟩ | ⟨⟨h11, h12⟩, hdig⟩
      · simp [h22]
      · have hne : s.length ≠ 22 := by omega
        have hd : (11 ≤ s.length && pyIsDigit s) = true := by
          have hne2 : s ≠ [] := by
            intro hnil
            rw [hnil] at h11
            simp at h11
          simp [pyIsDigit, List.all_eq_true, h11, List.isEmpty_eq_false, hne2]
          exact hdig
        simp [hne, hd]
    · intro t
      unfold acerRequestFailed
      rcases (by simpa [acerCore, List.all_eq_true] using hcore) with ⟨h22, _⟩ | ⟨⟨h11, h12⟩, hdig⟩
      · simp [h22]
      · have hne : s.length ≠ 22 := by omega
        have hd : (11 ≤ s.length && pyIsDigit s) = true := by
          have hne2 : s ≠ [] := by
            intro hnil
            rw [hnil] at h11
            simp at h11
          simp [pyIsDigit, List.all_eq_true, h11, List.isEmpty_eq_false, hne2]
          exact hdig
        simp [hne, hd]
  cases w with
  | success soup => simp [FetchOutcome.isFailure] at hfail
  | httpError st t =>
      simpa [get_acer_model_name, hreg, acerBody, hfb.2 t] using hfb.1
  | connectionError t =>
      simpa [get_acer_model_name, hreg, acerBody, hfb.2 t] using hfb.1
  | timeout t =>
      simpa [get_acer_model_name, hreg, acerBody, hfb.2 t] using hfb.1
  | requestError t =>
      simpa [get_acer_model_name, hreg, acerBody, hfb.2 t] using hfb.1

/-! ## Claim theorems -/

/-- C3: for every validly formatted identifier whose prefix misses the
vendor's inference table, the outcome is vendor-specific policy: Cisco
and TCL return a generic catch-all label as a match, while Apple,
Brother and Juniper return no match with a could-not-infer diagnostic;
and a known Cisco prefix such as `FOX` returns its specific table
label. -/
theorem claim3_unknown_prefix_policy :
    (∀ s, CISCO_SERIAL_REGEX s = true →
       (cisco_prefix_to_model.lookup (String.mk (pyUpper (s.take 3))) = none →
          get_cisco_model_name s =
            (some "Cisco Network Device (Inferred)",
             "Model inferred from serial number structure. Please verify.")) ∧
       (String.mk (pyUpper (s.take 3)) = "FOX" →
          get_cisco_model_name s =
            (some "Cisco Product (Foxconn - Common for Switches/Routers)",
             "Model inferred from serial number location code 'FOX'. Please verify."))) ∧
    (∀ s, TCL_SERIAL_REGEX s = true →
       get_tcl_model_name s =
         (some "TCL TV/Display (Inferred)",
          "Model inferred from serial number structure. Please verify.")) ∧
    (∀ s, APPLE_SERIAL_REGEX s = true →
       apple_prefix_to_model.lookup (String.mk (pyUpper (s.take 3))) = none →
         get_apple_model_name s = (none, "Could not infer Apple model from serial number prefix.")) ∧
    (∀ s, BROTHER_SERIAL_REGEX s = true →
       brother_prefix_to_model.lookup (String.mk (pyUpper (s.take 2))) = none →
         get_brother_model_name s = (none, "Could not infer Brother model from serial number prefix.")) ∧
    (∀ s, JUNIPER_SERIAL_REGEX s = true →
       juniper_prefix_to_model.lookup (String.mk (pyUpper (s.take 2))) = none →
         get_juniper_model_name s = (none, "Could not infer Juniper model from serial number prefix.")) := by
  refine ⟨fun s h => ⟨fun hl => ?_, fun hf => ?_⟩, fun s h => ?_,
          fun s h hl => ?_, fun s h hl => ?_, fun s h hl => ?_⟩
  · simp [get_cisco_model_name, ciscoBody, h, hl]
  · simp only [get_cisco_model_name, h, Bool.not_true, Bool.false_eq_true, if_false,
      ciscoBody, hf]
    rfl
  · simp [get_tcl_model_name, tclBody, h]
  · simp [get_apple_model_name, appleBody, h, hl]
  · simp [get_brother_model_name, brotherBody, h, hl]
  · simp [get_juniper_model_name, juniperBody, h, hl]

/-- Witness for C3: the spec's own examples — `FOX12345678` hits the
Cisco table, `ZZZ12345678` falls back to the generic Cisco label, and
`ZZ0000000000` yields the Juniper could-not-infer failure. -/
theorem claim3_witness :
    get_cisco_model_name "FOX12345678".data =
      (some "Cisco Product (Foxconn - Common for Switches/Routers)",
       "Model inferred from serial number location code 'FOX'. Please verify.") ∧
    get_cisco_model_name "ZZZ12345678".data =
      (some "Cisco Network Device (Inferred)",
       "Model inferred from serial number structure. Please verify.") ∧
    get_juniper_model_name "ZZ0000000000".data =
      (none, "Could not infer Juniper model from serial number prefix.") :=
  ⟨(claim3_unknown_prefix_policy.1 "FOX12345678".data (by decide)).2 (by decide),
   (claim3_unknown_prefix_policy.1 "ZZZ12345678".data (by decide)).1 (by decide),
   claim3_unknown_prefix_policy.2.2.2.2 "ZZ0000000000".data (by decide) (by decide)⟩

/-- C4: for every valid CyberPower identifier the resolver tries the
3-character prefix before the 2-character prefix and uses the first
table hit; in particular any identifier whose uppercased first three
characters are `CP1` resolves to the 3-character entry
`CyberPower CP1500PFCLCD`. -/
theorem claim4_cyberpower_specificity : ∀ s, CYBERPOWER_SERIAL_REGEX s = true →
    (∀ m, cyberpower_prefix_to_model.lookup (String.mk (pyUpper (s.take 3))) = some m →
       get_cyberpower_model_name s =
         (some m, "Model inferred from serial number prefix '" ++
            String.mk (pyUpper (s.take 3)) ++ "'. Please verify.")) ∧
    (cyberpower_prefix_to_model.lookup (String.mk (pyUpper (s.take 3))) = none →
     ∀ m, cyberpower_prefix_to_model.lookup (String.mk (pyUpper (s.take 2))) = some m →
       get_cyberpower_model_name s =
         (some m, "Model inferred from serial number prefix '" ++
            String.mk (pyUpper (s.take 2)) ++ "'. Please verify.")) ∧
    (String.mk (pyUpper (s.take 3)) = "CP1" →
       get_cyberpower_model_name s =
         (some "CyberPower CP1500PFCLCD",
          "Model inferred from serial number prefix 'CP1'. Please verify.")) := by
  intro s h
  refine ⟨fun m hm => ?_, fun h3 m hm => ?_, fun hf => ?_⟩
  · simp [get_cyberpower_model_name, cyberpowerBody, h, hm]
  · simp [get_cyberpower_model_name, cyberpowerBody, h, h3, hm]
  · simp only [get_cyberpower_model_name, h, Bool.not_true, Bool.false_eq_true, if_false,
      cyberpowerBody, hf]
    rfl

/-- Witness for C4: the spec's example `cp1500xxxxxx` uppercased —
the 3-character entry wins over the 2-character `CP` entry. -/
theorem claim4_witness :
    get_cyberpower_model_name "CP1500XXXXXX".data =
      (some "CyberPower CP1500PFCLCD",
       "Model inferred from serial number prefix 'CP1'. Please verify.") :=
  (claim4_cyberpower_specificity "CP1500XXXXXX".data (by decide)).2.2 (by decide)

/-- C5: for every identifier with no trailing newline (in particular
every trimmed identifier), each vendor's validation regex accepts
exactly the strings matching the vendor's documented length/charset
rule.  (Python's `$` would additionally admit one trailing newline,
which trimming removes.) -/
theorem claim5_validate_iff (s : Str) (h : s.getLast? ≠ some '\n') :
    (SERVICE_TAG_REGEX s = true ↔ specRuleDell s) ∧
    (HP_SERIAL_REGEX s = true ↔ specRuleHP s) ∧
    (VIEWSONIC_SERIAL_REGEX s = true ↔ specRuleViewSonic s) ∧
    (JUNIPER_SERIAL_REGEX s = true ↔ specRuleJuniper s) ∧
    (CYBERPOWER_SERIAL_REGEX s = true ↔ specRuleCyberPower s) ∧
    (BROTHER_SERIAL_REGEX s = true ↔ specRuleBrother s) ∧
    (APPLE_SERIAL_REGEX s = true ↔ specRuleApple s) ∧
    (ACER_SERIAL_REGEX s = true ↔ specRuleAcer s) ∧
    (LENOVO_SERIAL_REGEX s = true ↔ specRuleLenovo s) ∧
    (CISCO_SERIAL_REGEX s = true ↔ specRuleCisco s) ∧
    (APC_SERIAL_REGEX s = true ↔ specRuleAPC s) ∧
    (MICROSOFT_SERIAL_REGEX s = true ↔ specRuleMicrosoft s) ∧
    (SAMSUNG_SERIAL_REGEX s = true ↔ specRuleSamsung s) ∧
    (VIZIO_SERIAL_REGEX s = true ↔ specRuleVizio s) ∧
    (TCL_SERIAL_REGEX s = true ↔ specRuleTCL s) := by
  refine ⟨?_, ?_, ?_, ?_, ?_, ?_, ?_, ?_, ?_, ?_, ?_, ?_, ?_, ?_, ?_⟩
  · rw [SERVICE_TAG_REGEX, pyMatchAnchored_collapse _ _ h]
    simp [dellCore, specRuleDell, List.all_eq_true, isAsciiAlnum]
  · rw [HP_SERIAL_REGEX, pyMatchAnchored_collapse _ _ h]
    simp [hpCore, specRuleHP, List.all_eq_true, isAsciiAlnum, and_assoc]
  · rw [VIEWSONIC_SERIAL_REGEX, pyMatchAnchored_collapse _ _ h]
    simp [hpCore, specRuleViewSonic, List.all_eq_true, isAsciiAlnum, and_assoc]
  · rw [JUNIPER_SERIAL_REGEX, pyMatchAnchored_collapse _ _ h]
    simp [juniperCore, specRuleJuniper, List.all_eq_true, isAsciiAlnum]
  · rw [CYBERPOWER_SERIAL_REGEX, pyMatchAnchored_collapse _ _ h]
    simp [cyberpowerCore, specRuleCyberPower, List.all_eq_true, isAsciiAlnum]
  · rw [BROTHER_SERIAL_REGEX, pyMatchAnchored_collapse _ _ h]
    simp [brotherCore, specRuleBrother, List.all_eq_true, isAsciiAlnum]
  · rw [APPLE_SERIAL_REGEX, pyMatchAnchored_collapse _ _ h]
    simp [appleCore, specRuleApple, List.all_eq_true, isAsciiAlnum]
  · rw [ACER_SERIAL_REGEX, pyMatchAnchored_collapse _ _ h]
    simp [acerCore, specRuleAcer, List.all_eq_true, isAsciiAlnum, and_assoc]
  · rw [LENOVO_SERIAL_REGEX, pyMatchAnchored_collapse _ _ h]
    simp [lenovoCore, specRuleLenovo, List.all_eq_true, isAsciiAlnum, and_assoc]
  · rw [CISCO_SERIAL_REGEX, pyMatchAnchored_collapse _ _ h]
    simp [ciscoCore, specRuleCisco, List.all_eq_true, and_assoc]
  · rw [APC_SERIAL_REGEX, pyMatchAnchored_collapse _ _ h]
    simp [apcCore, specRuleAPC, List.all_eq_true, isUpperAlnum]
  · rw [MICROSOFT_SERIAL_REGEX, pyMatchAnchored_collapse _ _ h]
    simp [microsoftCore, specRuleMicrosoft, List.all_eq_true, isUpperAlnum, or_assoc]
  · rw [SAMSUNG_SERIAL_REGEX, pyMatchAnchored_collapse _ _ h]
    simp [samsungCore, specRuleSamsung, List.all_eq_true, isUpperAlnum]
  · rw [VIZIO_SERIAL_REGEX, pyMatchAnchored_collapse _ _ h]
    simp [vizioCore, specRuleVizio, List.all_eq_true, isUpperAlnum]
  · rw [TCL_SERIAL_REGEX, pyMatchAnchored_collapse _ _ h]
    simp [tclCore, specRuleTCL, List.all_eq_true, isUpperAlnum, and_assoc]

/-- Witness for C5: the spec's example pair — Dell accepts `A1B2C3D`
and rejects the 5-character `ABC12`. -/
theorem claim5_witness :
    SERVICE_TAG_REGEX "A1B2C3D".data = true ∧
    SERVICE_TAG_REGEX "ABC12".data = false := by
  constructor
  · exact ((claim5_validate_iff "A1B2C3D".data (by decide)).1).mpr
      (by unfold specRuleDell; decide)
  · have hiff := (claim5_validate_iff "ABC12".data (by decide)).1
    by_contra hc
    simp only [ne_eq, Bool.not_eq_false] at hc
    have h2 := hiff.mp hc
    revert h2
    unfold specRuleDell
    decide

/-- C7: every resolution attempt terminates in exactly one outcome whose
diagnostic is non-empty and whose `matched` flag is true exactly when a
non-empty model name is carried, for every vendor, identifier argument
and fetch result. -/
theorem claim7_outcome_invariant : ∀ (v : Vendor) (arg : Option Str) (w : FetchOutcome),
    (outcomeOf (resolve v arg w)).diagnostic ≠ "" ∧
    ((outcomeOf (resolve v arg w)).matched = true ↔
      ∃ m, (outcomeOf (resolve v arg w)).model_name = some m ∧ m ≠ "") := by
  intro v arg w
  cases v with
  | dell => exact routeLookup_outcome _ _ _ _ _ (by decide) (by decide) (fun s => dell_snd_ne s w)
  | hp => exact routeLookup_outcome _ _ _ _ _ (by decide) (by decide) (fun s => hp_snd_ne s w)
  | lenovo => exact routeLookup_outcome _ _ _ _ _ (by decide) (by decide) (fun s => lenovo_snd_ne s w)
  | acer => exact routeLookup_outcome _ _ _ _ _ (by decide) (by decide) (fun s => acer_snd_ne s w)
  | viewsonic =>
      exact routeLookup_outcome _ _ _ _ _ (by decide) (by decide) (fun s => viewsonic_snd_ne s w)
  | apple => exact routeLookup_outcome _ _ _ _ _ (by decide) (by decide) apple_snd_ne
  | cisco => exact routeLookup_outcome _ _ _ _ _ (by decide) (by decide) cisco_snd_ne
  | juniper => exact routeLookup_outcome _ _ _ _ _ (by decide) (by decide) juniper_snd_ne
  | apc => exact routeLookup_outcome _ _ _ _ _ (by decide) (by decide) apc_snd_ne
  | cyberpower => exact routeLookup_outcome _ _ _ _ _ (by decide) (by decide) cyberpower_snd_ne
  | brother => exact routeLookup_outcome _ _ _ _ _ (by decide) (by decide) brother_snd_ne
  | samsung => exact routeLookup_outcome _ _ _ _ _ (by decide) (by decide) samsung_snd_ne
  | microsoft => exact routeLookup_outcome _ _ _ _ _ (by decide) (by decide) microsoft_snd_ne
  | vizio => exact routeLookup_outcome _ _ _ _ _ (by decide) (by decide) vizio_snd_ne
  | tcl => exact routeLookup_outcome _ _ _ _ _ (by decide) (by decide) tcl_snd_ne

/-- C8: for every vendor, resolving a missing or empty identifier yields
the missing-input outcome, identically for every fetch result — the
empty check precedes validation and the resolver, and no network result
is consulted. -/
theorem claim8_missing_input : ∀ (v : Vendor) (w : FetchOutcome),
    resolve v none w = .missing (missingMsgOf v) ∧
    resolve v (some []) w = .missing (missingMsgOf v) := by
  intro v w
  cases v <;> exact ⟨rfl, rfl⟩

/-- C9: every identifier passing the Samsung, Microsoft or TCL format
check resolves to the vendor's fixed generic inferred label with the
shared structure-inference diagnostic (these resolvers consult no table
and take no fetch result). -/
theorem claim9_generic_inference :
    (∀ s, SAMSUNG_SERIAL_REGEX s = true →
       get_samsung_model_name s =
         (some "Samsung Device (Inferred)",
          "Model inferred from serial number structure. Please verify.")) ∧
    (∀ s, MICROSOFT_SERIAL_REGEX s = true →
       get_microsoft_model_name s =
         (some "Microsoft Surface Device (Inferred)",
          "Model inferred from serial number structure. Please verify.")) ∧
    (∀ s, TCL_SERIAL_REGEX s = true →
       get_tcl_model_name s =
         (some "TCL TV/Display (Inferred)",
          "Model inferred from serial number structure. Please verify.")) := by
  refine ⟨fun s h => ?_, fun s h => ?_, fun s h => ?_⟩
  · simp [get_samsung_model_name, samsungBody, h]
  · simp [get_microsoft_model_name, microsoftBody, h]
  · simp [get_tcl_model_name, tclBody, h]

/-- Witness for C9 at concrete valid serials of each vendor. -/
theorem claim9_witness :
    get_samsung_model_name "ABCDEFGHIJK".data =
      (some "Samsung Device (Inferred)",
       "Model inferred from serial number structure. Please verify.") ∧
    get_microsoft_model_name "123456789012".data =
      (some "Microsoft Surface Device (Inferred)",
       "Model inferred from serial number structure. Please verify.") ∧
    get_tcl_model_name "ABCDEFGHIJKL".data =
      (some "TCL TV/Display (Inferred)",
       "Model inferred from serial number structure. Please verify.") :=
  ⟨claim9_generic_inference.1 "ABCDEFGHIJK".data (by decide),
   claim9_generic_inference.2.1 "123456789012".data (by decide),
   claim9_generic_inference.2.2 "ABCDEFGHIJKL".data (by decide)⟩

/-- C10: each resolver re-checks the identical regex the route already
checked, so for any identifier passing the vendor's regex (as every
identifier handed over by the route does) the resolver equals its
unguarded body — its invalid-format branch is unreachable via the
route. -/
theorem claim10_double_validation : ∀ (s : Str) (w : FetchOutcome),
    (SERVICE_TAG_REGEX s = true → get_dell_model_name s w = dellBody s w) ∧
    (HP_SERIAL_REGEX s = true → get_hp_model_name s w = hpBody s w) ∧
    (LENOVO_SERIAL_REGEX s = true → get_lenovo_model_name s w = lenovoBody s w) ∧
    (ACER_SERIAL_REGEX s = true → get_acer_model_name s w = acerBody s w) ∧
    (VIEWSONIC_SERIAL_REGEX s = true → get_viewsonic_model_name s w = viewsonicBody s w) ∧
    (APPLE_SERIAL_REGEX s = true → get_apple_model_name s = appleBody s) ∧
    (CISCO_SERIAL_REGEX s = true → get_cisco_model_name s = ciscoBody s) ∧
    (JUNIPER_SERIAL_REGEX s = true → get_juniper_model_name s = juniperBody s) ∧
    (APC_SERIAL_REGEX s = true → get_apc_model_name s = apcBody s) ∧
    (CYBERPOWER_SERIAL_REGEX s = true → get_cyberpower_model_name s = cyberpowerBody s) ∧
    (BROTHER_SERIAL_REGEX s = true → get_brother_model_name s = brotherBody s) ∧
    (SAMSUNG_SERIAL_REGEX s = true → get_samsung_model_name s = samsungBody s) ∧
    (MICROSOFT_SERIAL_REGEX s = true → get_microsoft_model_name s = microsoftBody s) ∧
    (VIZIO_SERIAL_REGEX s = true → get_vizio_model_name s = vizioBody s) ∧
    (TCL_SERIAL_REGEX s = true → get_tcl_model_name s = tclBody s) := by
  intro s w
  refine ⟨fun h => ?_, fun h => ?_, fun h => ?_, fun h => ?_, fun h => ?_,
          fun h => ?_, fun h => ?_, fun h => ?_, fun h => ?_, fun h => ?_,
          fun h => ?_, fun h => ?_, fun h => ?_, fun h => ?_, fun h => ?_⟩
  · simp [get_dell_model_name, h]
  · simp [get_hp_model_name, h]
  · simp [get_lenovo_model_name, h]
  · simp [get_acer_model_name, h]
  · simp [get_viewsonic_model_name, h]
  · simp [get_apple_model_name, h]
  · simp [get_cisco_model_name, h]
  · simp [get_juniper_model_name, h]
  · simp [get_apc_model_name, h]
  · simp [get_cyberpower_model_name, h]
  · simp [get_brother_model_name, h]
  · simp [get_samsung_model_name, h]
  · simp [get_microsoft_model_name, h]
  · simp [get_vizio_model_name, h]
  · simp [get_tcl_model_name, h]

/-- Witness for C10 at a route-valid Dell tag and a route-valid Apple
serial. -/
theorem claim10_witness :
    get_dell_model_name "ABC1234".data (.timeout "t") =
      dellBody "ABC1234".data (.timeout "t") ∧
    get_apple_model_name "C02XXXXXXXXX".data = appleBody "C02XXXXXXXXX".data :=
  ⟨(claim10_double_validation "ABC1234".data (.timeout "t")).1 (by decide),
   (claim10_double_validation "C02XXXXXXXXX".data (.timeout "t")).2.2.2.2.2.1 (by decide)⟩

/-- C1 counterexample: for the 22-character Acer identifier
`ABCDEFGHIJKLMNOPQRSTUV`, a SUCCESSFUL fetch in which no selector yields
a model name still returns the serial-slice fallback label as a match —
refuting the claim that a successful-but-empty parse yields
`matched=false` with no fallback label. -/
theorem claim1_counterexample :
    get_acer_model_name "ABCDEFGHIJKLMNOPQRSTUV".data (.success emptyPage) =
      (some "Acer Product (Serial: ABCDE...)",
       "Model inferred from serial number prefix. Please verify.") ∧
    matchedModel (get_acer_model_name "ABCDEFGHIJKLMNOPQRSTUV".data (.success emptyPage)) ≠ none := by
  constructor <;> decide

/-- C1 amended: for every 22-character identifier passing Acer
validation, the serial-slice fallback label is returned with
`matched=true` BOTH when the network call fails (with a diagnostic
noting the scraping failure) AND when the fetch succeeds but no selector
yields non-empty text (with the plain inferred diagnostic). -/
theorem claim1_amended : ∀ (sn : Str) (page : Page) (st : Nat) (t : String),
    ACER_SERIAL_REGEX sn = true → sn.length = 22 →
    (get_acer_model_name sn (.timeout t) =
       (some ("Acer Product (Serial: " ++ String.mk (sn.take 5) ++ "...)"),
        "Model inferred from serial number prefix (Web scraping failed). Please verify.") ∧
     get_acer_model_name sn (.connectionError t) =
       (some ("Acer Product (Serial: " ++ String.mk (sn.take 5) ++ "...)"),
        "Model inferred from serial number prefix (Web scraping failed). Please verify.") ∧
     get_acer_model_name sn (.httpError st t) =
       (some ("Acer Product (Serial: " ++ String.mk (sn.take 5) ++ "...)"),
        "Model inferred from serial number prefix (Web scraping failed). Please verify.") ∧
     get_acer_model_name sn (.requestError t) =
       (some ("Acer Product (Serial: " ++ String.mk (sn.take 5) ++ "...)"),
        "Model inferred from serial number prefix (Web scraping failed). Please verify.")) ∧
    (((page.findTagClass "h1" "product-name").orElse
        (fun _ => page.findTagClass "h2" "product-name") = none ∨
      (∃ el, (page.findTagClass "h1" "product-name").orElse
          (fun _ => page.findTagClass "h2" "product-name") = some el ∧ pyStripS el = "")) →
     get_acer_model_name sn (.success page) =
       (some ("Acer Product (Serial: " ++ String.mk (sn.take 5) ++ "...)"),
        "Model inferred from serial number prefix. Please verify.")) := by
  intro sn page st t hreg hlen
  constructor
  · refine ⟨?_, ?_, ?_, ?_⟩ <;>
      simp [get_acer_model_name, hreg, acerBody, acerRequestFailed, hlen]
  · rintro (hsel | ⟨el, hel, hstrip⟩)
    · simp [get_acer_model_name, hreg, acerBody, hsel, acerEmptyParse, hlen]
    · simp [get_acer_model_name, hreg, acerBody, hel, hstrip, acerEmptyParse, hlen]

/-- Witness for the amended C1: both the timeout path and the
successful-empty-parse path at the concrete 22-character serial. -/
theorem claim1_witness :
    get_acer_model_name "ABCDEFGHIJKLMNOPQRSTUV".data (.timeout "boom") =
      (some ("Acer Product (Serial: " ++ String.mk ("ABCDEFGHIJKLMNOPQRSTUV".data.take 5) ++ "...)"),
       "Model inferred from serial number prefix (Web scraping failed). Please verify.") ∧
    get_acer_model_name "ABCDEFGHIJKLMNOPQRSTUV".data (.success emptyPage) =
      (some ("Acer Product (Serial: " ++ String.mk ("ABCDEFGHIJKLMNOPQRSTUV".data.take 5) ++ "...)"),
       "Model inferred from serial number prefix. Please verify.") :=
  ⟨(claim1_amended "ABCDEFGHIJKLMNOPQRSTUV".data emptyPage 500 "boom"
      (by decide) (by decide)).1.1,
   (claim1_amended "ABCDEFGHIJKLMNOPQRSTUV".data emptyPage 500 "boom"
      (by decide) (by decide)).2 (Or.inl rfl)⟩

/-- C2 counterexample: the Acer resolver's success-path extraction for a
valid 22-character identifier agrees with NO instance of the spec's §4.3
three-stage chain (primary selector, secondary selector, title regex;
first non-empty match wins; no-match only if all three fail): on a page
where every selector and the title yield nothing the chain gives no
match, but the code returns the serial-slice fallback as a match. -/
theorem claim2_counterexample :
    ¬ ∃ (a b : Selector) (rx : String → Option String),
        ∀ page : Page,
          matchedModel (acerBody "ABCDEFGHIJKLMNOPQRSTUV".data (.success page)) =
            threeStageChain a b rx page := by
  rintro ⟨a, b, rx, h⟩
  have hchain : threeStageChain a b rx emptyPage = none := by
    unfold threeStageChain selStage emptyPage
    cases a <;> cases b <;> rfl
  have h1 := h emptyPage
  rw [hchain] at h1
  have h2 : matchedModel (acerBody "ABCDEFGHIJKLMNOPQRSTUV".data (.success emptyPage)) =
      some "Acer Product (Serial: ABCDE...)" := by decide
  rw [h2] at h1
  exact Option.noConfusion h1

/-- C2 amended: the actual per-vendor extraction structure.  Dell, HP
and ViewSonic try primary selector then secondary selector — the first
FOUND element wins, even when its post-processed text is empty — and
consult the title-regex stage only when neither selector finds an
element.  Lenovo and Acer have only the two structural selectors (a
found element counts only with non-empty stripped text) and no
title-regex stage; when both fail, Lenovo reports no match while Acer
falls to its serial-slice fallback policy. -/
theorem claim2_amended : ∀ (page : Page) (t : String) (sn : Str),
    (page.findTagClass "h1" "product-name" = some t →
       (dellParse page).fst = some (dellClean t)) ∧
    (page.findTagClass "h1" "product-name" = none →
     page.findTagId "span" "modelName" = some t →
       (dellParse page).fst = some (dellClean t)) ∧
    (page.findTagClass "h1" "product-name" = none →
     page.findTagId "span" "modelName" = none →
       (dellParse page).fst = dellTitleStage page) ∧
    (page.findTagClass "h1" "product-title" = some t →
       (hpParse page).fst = some (hpClean t)) ∧
    (page.findTagClass "h1" "product-title" = none →
     page.findTagClass "span" "product-name" = some t →
       (hpParse page).fst = some (hpClean t)) ∧
    (page.findTagClass "h1" "product-title" = none →
     page.findTagClass "span" "product-name" = none →
       (hpParse page).fst = hpTitleStage page) ∧
    (page.findTagClass "h1" "product-name" = some t →
       (viewsonicParse page).fst = some (pyStripS t)) ∧
    (page.findTagClass "h1" "product-name" = none →
     page.findTagClass "span" "model-name" = some t →
       (viewsonicParse page).fst = some (pyStripS t)) ∧
    (page.findTagClass "h1" "product-name" = none →
     page.findTagClass "span" "model-name" = none →
       (viewsonicParse page).fst = vsTitleStage page) ∧
    (page.findTagClass "span" "product-name" = some t →
       (lenovoBody sn (.success page)).fst =
         (if pyStripS t ≠ "" then some (pyStripS t) else none)) ∧
    (page.findTagClass "span" "product-name" = none →
     page.findTagClass "h2" "product-name" = some t →
       (lenovoBody sn (.success page)).fst =
         (if pyStripS t ≠ "" then some (pyStripS t) else none)) ∧
    (page.findTagClass "span" "product-name" = none →
     page.findTagClass "h2" "product-name" = none →
       (lenovoBody sn (.success page)).fst = none) ∧
    (page.findTagClass "h1" "product-name" = some t → pyStripS t ≠ "" →
       (acerBody sn (.success page)).fst = some (pyStripS t)) ∧
    (page.findTagClass "h1" "product-name" = none →
     page.findTagClass "h2" "product-name" = some t → pyStripS t ≠ "" →
       (acerBody sn (.success page)).fst = some (pyStripS t)) ∧
    (page.findTagClass "h1" "product-name" = none →
     page.findTagClass "h2" "product-name" = none →
       (acerBody sn (.success page)).fst = (acerEmptyParse sn).fst) := by
  intro page t sn
  refine ⟨fun h1 => ?_, fun h1 h2 => ?_, fun h1 h2 => ?_,
          fun h1 => ?_, fun h1 h2 => ?_, fun h1 h2 => ?_,
          fun h1 => ?_, fun h1 h2 => ?_, fun h1 h2 => ?_,
          fun h1 => ?_, fun h1 h2 => ?_, fun h1 h2 => ?_,
          fun h1 ht => ?_, fun h1 h2 ht => ?_, fun h1 h2 => ?_⟩
  · simp [dellParse, h1, Option.orElse]
  · simp [dellParse, h1, h2, Option.orElse]
  · cases h3 : dellTitleStage page <;> simp [dellParse, h1, h2, h3, Option.orElse]
  · simp [hpParse, h1, Option.orElse]
  · simp [hpParse, h1, h2, Option.orElse]
  · cases h3 : hpTitleStage page <;> simp [hpParse, h1, h2, h3, Option.orElse]
  · simp [viewsonicParse, h1, Option.orElse]
  · simp [viewsonicParse, h1, h2, Option.orElse]
  · cases h3 : vsTitleStage page <;> simp [viewsonicParse, h1, h2, h3, Option.orElse]
  · by_cases h3 : pyStripS t = "" <;> simp [lenovoBody, h1, h3, Option.orElse]
  · by_cases h3 : pyStripS t = "" <;> simp [lenovoBody, h1, h2, h3, Option.orElse]
  · simp [lenovoBody, h1, h2, Option.orElse]
  · simp [acerBody, h1, ht, Option.orElse]
  · simp [acerBody, h1, h2, ht, Option.orElse]
  · cases h3 : acerEmptyParse sn with
    | mk om m => simp [acerBody, h1, h2, h3, Option.orElse]

/-- Witness for the amended C2: a found `h1.product-name` element wins
for Dell on a concrete page, and Lenovo ignores a Dell-style title on a
page without elements (no title-regex stage). -/
theorem claim2_witness :
    (dellParse demoElemPage).fst = some (dellClean " XPS 13 ") ∧
    (dellParse demoTitlePage).fst = dellTitleStage demoTitlePage ∧
    (lenovoBody [] (.success demoTitlePage)).fst = none :=
  ⟨(claim2_amended demoElemPage " XPS 13 " []).1 (by decide),
   (claim2_amended demoTitlePage " XPS 13 " []).2.2.1 rfl rfl,
   (claim2_amended demoTitlePage " XPS 13 " []).2.2.2.2.2.2.2.2.2.2.2.1 rfl rfl⟩

/-- C6 counterexample: a timeout — one of the enumerated failure
conditions — on the Acer path for a valid 22-character identifier is
NOT converted into a `matched=false` outcome: the dispatcher returns a
200 match with the serial-slice fallback label. -/
theorem claim6_counterexample :
    resolve .acer (some "ABCDEFGHIJKLMNOPQRSTUV".data) (.timeout "timed out") =
      .ok "ABCDEFGHIJKLMNOPQRSTUV".data "Acer Product (Serial: ABCDE...)"
        "Model inferred from serial number prefix (Web scraping failed). Please verify." ∧
    (outcomeOf (resolve .acer (some "ABCDEFGHIJKLMNOPQRSTUV".data) (.timeout "timed out"))).matched = true := by
  constructor <;> decide

/-- C6 amended: the dispatcher is total and never propagates an error —
every outcome carries a non-empty human-readable diagnostic — and every
enumerated failure condition yields `matched=false` EXCEPT on the Acer
path, which recovers network failures (for every identifier matching its
core pattern) into a `matched=true` inferred fallback.  Specifically:
missing input and invalid format give non-matches for every vendor;
network failures give no model for Dell, HP, Lenovo and ViewSonic but a
recovered match for Acer; a fetched page from which nothing is extracted
gives no model for Dell, HP, ViewSonic and Lenovo; and an inference miss
gives no model for Apple, Brother, Juniper and CyberPower. -/
theorem claim6_amended :
    (∀ (v : Vendor) (arg : Option Str) (w : FetchOutcome),
       (outcomeOf (resolve v arg w)).diagnostic ≠ "") ∧
    (∀ (v : Vendor) (w : FetchOutcome),
       (outcomeOf (resolve v none w)).matched = false ∧
       (outcomeOf (resolve v (some []) w)).matched = false) ∧
    (∀ (v : Vendor) (arg : Option Str) (w : FetchOutcome),
       (pyUpper (arg.getD [])).isEmpty = false →
       vendorRegex v (pyUpper (arg.getD [])) = false →
       (outcomeOf (resolve v arg w)).matched = false) ∧
    (∀ (s : Str) (w : FetchOutcome), w.isFailure = true →
       (get_dell_model_name s w).fst = none ∧
       (get_hp_model_name s w).fst = none ∧
       (get_lenovo_model_name s w).fst = none ∧
       (get_viewsonic_model_name s w).fst = none) ∧
    (∀ (s : Str) (w : FetchOutcome), w.isFailure = true → acerCore s = true →
       (get_acer_model_name s w).fst ≠ none) ∧
    (∀ (s : Str) (page : Page),
       page.findTagClass "h1" "product-name" = none →
       page.findTagId "span" "modelName" = none →
       dellTitleStage page = none →
       (get_dell_model_name s (.success page)).fst = none) ∧
    (∀ (s : Str) (page : Page),
       page.findTagClass "h1" "product-title" = none →
       page.findTagClass "span" "product-name" = none →
       hpTitleStage page = none →
       (get_hp_model_name s (.success page)).fst = none) ∧
    (∀ (s : Str) (page : Page),
       page.findTagClass "h1" "product-name" = none →
       page.findTagClass "span" "model-name" = none →
       vsTitleStage page = none →
       (get_viewsonic_model_name s (.success page)).fst = none) ∧
    (∀ (s : Str) (page : Page),
       page.findTagClass "span" "product-name" = none →
       page.findTagClass "h2" "product-name" = none →
       (get_lenovo_model_name s (.success page)).fst = none) ∧
    (∀ s, apple_prefix_to_model.lookup (String.mk (pyUpper (s.take 3))) = none →
       (get_apple_model_name s).fst = none) ∧
    (∀ s, brother_prefix_to_model.lookup (String.mk (pyUpper (s.take 2))) = none →
       (get_brother_model_name s).fst = none) ∧
    (∀ s, juniper_prefix_to_model.lookup (String.mk (pyUpper (s.take 2))) = none →
       (get_juniper_model_name s).fst = none) ∧
    (∀ s, cyberpower_prefix_to_model.lookup (String.mk (pyUpper (s.take 3))) = none →
       cyberpower_prefix_to_model.lookup (String.mk (pyUpper (s.take 2))) = none →
       (get_cyberpower_model_name s).fst = none) := by
  refine ⟨?_, ?_, ?_, ?_, ?_, ?_, ?_, ?_, ?_, ?_, ?_, ?_, ?_⟩
  · intro v arg w
    cases v with
    | dell => exact (routeLookup_outcome _ _ _ _ _ (by decide) (by decide) (fun s => dell_snd_ne s w)).1
    | hp => exact (routeLookup_outcome _ _ _ _ _ (by decide) (by decide) (fun s => hp_snd_ne s w)).1
    | lenovo => exact (routeLookup_outcome _ _ _ _ _ (by decide) (by decide) (fun s => lenovo_snd_ne s w)).1
    | acer => exact (routeLookup_outcome _ _ _ _ _ (by decide) (by decide) (fun s => acer_snd_ne s w)).1
    | viewsonic =>
        exact (routeLookup_outcome _ _ _ _ _ (by decide) (by decide) (fun s => viewsonic_snd_ne s w)).1
    | apple => exact (routeLookup_outcome _ _ _ _ _ (by decide) (by decide) apple_snd_ne).1
    | cisco => exact (routeLookup_outcome _ _ _ _ _ (by decide) (by decide) cisco_snd_ne).1
    | juniper => exact (routeLookup_outcome _ _ _ _ _ (by decide) (by decide) juniper_snd_ne).1
    | apc => exact (routeLookup_outcome _ _ _ _ _ (by decide) (by decide) apc_snd_ne).1
    | cyberpower => exact (routeLookup_outcome _ _ _ _ _ (by decide) (by decide) cyberpower_snd_ne).1
    | brother => exact (routeLookup_outcome _ _ _ _ _ (by decide) (by decide) brother_snd_ne).1
    | samsung => exact (routeLookup_outcome _ _ _ _ _ (by decide) (by decide) samsung_snd_ne).1
    | microsoft => exact (routeLookup_outcome _ _ _ _ _ (by decide) (by decide) microsoft_snd_ne).1
    | vizio => exact (routeLookup_outcome _ _ _ _ _ (by decide) (by decide) vizio_snd_ne).1
    | tcl => exact (routeLookup_outcome _ _ _ _ _ (by decide) (by decide) tcl_snd_ne).1
  · intro v w
    cases v <;> exact ⟨rfl, rfl⟩
  · intro v arg w h1 h2
    cases v <;> simp only [vendorRegex] at h2 <;>
      simp only [resolve, lookup_dell_service_tag, lookup_hp_serial_number,
        lookup_lenovo_serial_number, lookup_acer_serial_number,
        lookup_viewsonic_serial_number, lookup_apple_serial_number,
        lookup_cisco_serial_number, lookup_juniper_serial_number,
        lookup_apc_serial_number, lookup_cyberpower_serial_number,
        lookup_brother_serial_number, lookup_samsung_serial_number,
        lookup_microsoft_serial_number, lookup_vizio_serial_number,
        lookup_tcl_serial_number] <;>
      exact routeLookup_invalid_matched _ _ _ _ _ h1 h2
  · intro s w hfail
    exact ⟨dell_fail_none s w hfail, hp_fail_none s w hfail,
           lenovo_fail_none s w hfail, viewsonic_fail_none s w hfail⟩
  · intro s w hfail hcore
    exact acer_fail_matched s w hfail hcore
  · intro s page h1 h2 h3
    by_cases hreg : SERVICE_TAG_REGEX s
    · simp [get_dell_model_name, hreg, dellBody, dellParse, h1, h2, h3, Option.orElse]
    · simp [get_dell_model_name, hreg]
  · intro s page h1 h2 h3
    by_cases hreg : HP_SERIAL_REGEX s
    · simp [get_hp_model_name, hreg, hpBody, hpParse, h1, h2, h3, Option.orElse]
    · simp [get_hp_model_name, hreg]
  · intro s page h1 h2 h3
    by_cases hreg : VIEWSONIC_SERIAL_REGEX s
    · simp [get_viewsonic_model_name, hreg, viewsonicBody, viewsonicParse, h1, h2, h3, Option.orElse]
    · simp [get_viewsonic_model_name, hreg]
  · intro s page h1 h2
    by_cases hreg : LENOVO_SERIAL_REGEX s
    · simp [get_lenovo_model_name, hreg, lenovoBody, h1, h2, Option.orElse]
    · simp [get_lenovo_model_name, hreg]
  · intro s hl
    by_cases hreg : APPLE_SERIAL_REGEX s
    · simp [get_apple_model_name, hreg, appleBody, hl]
    · simp [get_apple_model_name, hreg]
  · intro s hl
    by_cases hreg : BROTHER_SERIAL_REGEX s
    · simp [get_brother_model_name, hreg, brotherBody, hl]
    · simp [get_brother_model_name, hreg]
  · intro s hl
    by_cases hreg : JUNIPER_SERIAL_REGEX s
    · simp [get_juniper_model_name, hreg, juniperBody, hl]
    · simp [get_juniper_model_name, hreg]
  · intro s hl3 hl2
    by_cases hreg : CYBERPOWER_SERIAL_REGEX s
    · simp [get_cyberpower_model_name, hreg, cyberpowerBody, hl3, hl2]
    · simp [get_cyberpower_model_name, hreg]

/-- Witness for the amended C6: a Dell timeout gives no model, an Acer
timeout on a valid SNID recovers a match, and a malformed Dell tag is
rejected as a non-match. -/
theorem claim6_witness :
    (get_dell_model_name "ABC1234".data (.timeout "t")).fst = none ∧
    (get_acer_model_name "12345678901".data (.timeout "t")).fst ≠ none ∧
    (outcomeOf (resolve .dell (some "AB!".data) (.timeout "t"))).matched = false :=
  ⟨(claim6_amended.2.2.2.1 "ABC1234".data (.timeout "t") rfl).1,
   claim6_amended.2.2.2.2.1 "12345678901".data (.timeout "t") rfl (by decide),
   claim6_amended.2.2.1 .dell (some "AB!".data) (.timeout "t") (by decide) (by decide)⟩
